import Mathlib

/-!
Verification development for the Mimamori pattern-detection and
temporal-aggregation engine.

The definitions below are a shallow embedding of the TypeScript source:
  - `src/database/signals.ts` (SignalRepository, calculateTrend)
  - `src/context/aggregator.ts` (SignalAggregator.recordAnalysis)
  - `src/context/tracker.ts` (ContextTracker.checkTrigger / buildContext)
  - the message repository (MessageRepository.getContextBetweenUsers)

Conventions:
  - JS numbers that hold integers (timestamps, counts) become `Int`/`Nat`;
    values obtained by division (averages, confidences) become `Rat`.
  - Text is handled as lists of Unicode codepoints (`List Nat`), matching
    JS semantics on the BMP characters that occur in the source tables.
  - SQL tables keyed by a UNIQUE constraint are modelled as lists in which
    an upsert removes the previously keyed row and conses the new one, so
    that keyed lookup (`find?`) observes exactly the SQL row state.
-/

namespace Mimamori

/-! ### Severity and analysis verdicts (src/analyzer types) -/

inductive Severity where
  | low
  | medium
  | high
deriving Repr, DecidableEq

/-- The analyzer verdict consumed by `SignalAggregator.recordAnalysis`.
`issueType` is kept as a raw string: the aggregator checks it dynamically
against the known breakdown keys, so unknown labels are representable. -/
structure AnalysisResult where
  isConcerning : Bool
  severity : Severity
  issueType : String
  confidence : Rat
deriving Repr, DecidableEq

/-! ### Signal store data model (src/database/signals.ts) -/

structure IssueBreakdown where
  discrimination : Nat
  harassment : Nat
  bullying : Nat
  implicit_bias : Nat
  labeling : Nat
  targeting : Nat
  inappropriate : Nat
deriving Repr, DecidableEq

structure SeverityBreakdown where
  low : Nat
  medium : Nat
  high : Nat
deriving Repr, DecidableEq

/-- A row of the `user_signals` table.  The source serialises the two
breakdowns as JSON text columns; since they are written and read back by
this same system the round-trip is the identity and they are modelled
structurally. -/
structure UserSignal where
  guild_id : String
  source_user_id : String
  target_user_id : String
  total_interactions : Nat
  concerning_count : Nat
  issue_breakdown : IssueBreakdown
  severity_breakdown : SeverityBreakdown
  avg_confidence : Rat
  trend : Int
  first_seen : Int
  last_seen : Int
  last_aggregated : Int
deriving Repr, DecidableEq

/-- A row of the `daily_snapshots` table. -/
structure DailySnapshot where
  guild_id : String
  source_user_id : String
  target_user_id : String
  date : String
  interaction_count : Nat
  concerning_count : Nat
  avg_severity : Rat
  primary_issue_type : Option String
deriving Repr, DecidableEq

/-- The two signal tables.  Both carry a UNIQUE key constraint
(`(guild, source, target)` resp. `(guild, source, target, date)`). -/
structure SignalStore where
  signals : List UserSignal
  snapshots : List DailySnapshot
deriving Repr, DecidableEq

def emptyStore : SignalStore := ⟨[], []⟩

def sigKeyMatches (g s t : String) (x : UserSignal) : Bool :=
  x.guild_id == g && x.source_user_id == s && x.target_user_id == t

/-- `SignalRepository.getSignal`: SELECT on the unique signal key. -/
def getSignal (st : SignalStore) (g s t : String) : Option UserSignal :=
  st.signals.find? (sigKeyMatches g s t)

/-- `SignalRepository.upsertSignal`: INSERT .. ON CONFLICT DO UPDATE.  The
conflict clause updates every column except `first_seen`, which keeps the
value already stored. -/
def upsertSignal (st : SignalStore) (sig : UserSignal) : SignalStore :=
  let newSig :=
    match getSignal st sig.guild_id sig.source_user_id sig.target_user_id with
    | some old => { sig with first_seen := old.first_seen }
    | none => sig
  { st with signals :=
      (newSig :: st.signals.filter
        (fun x => !(sigKeyMatches sig.guild_id sig.source_user_id sig.target_user_id x))) }

def snapKeyMatches (g s t d : String) (x : DailySnapshot) : Bool :=
  x.guild_id == g && x.source_user_id == s && x.target_user_id == t && x.date == d

/-- `SignalRepository.recordSnapshot`: INSERT OR REPLACE on the unique
snapshot key, i.e. the whole row for that day is replaced. -/
def recordSnapshot (st : SignalStore) (snap : DailySnapshot) : SignalStore :=
  { st with snapshots :=
      (snap :: st.snapshots.filter
        (fun x => !(snapKeyMatches snap.guild_id snap.source_user_id
                      snap.target_user_id snap.date x))) }

def getSnapshot (st : SignalStore) (g s t d : String) : Option DailySnapshot :=
  st.snapshots.find? (snapKeyMatches g s t d)

/-- Stable insertion used to model SQL ORDER BY. -/
def insertLe {α : Type} (le : α → α → Bool) (a : α) : List α → List α
  | [] => [a]
  | b :: l => if le a b then a :: b :: l else b :: insertLe le a l

/-- Stable sort used to model SQL ORDER BY (any stable sort realises the
SQL contract; ties are left in a fixed order). -/
def sortLe {α : Type} (le : α → α → Bool) : List α → List α
  | [] => []
  | a :: l => insertLe le a (sortLe le l)

/-- Descending comparison on the `date` text column.  SQLite compares TEXT
with memcmp on UTF-8 bytes, which coincides with codepoint-lexicographic
order on the `YYYY-MM-DD` strings used here. -/
def dateDesc (x y : DailySnapshot) : Bool := decide (y.date ≤ x.date)

/-- `SignalRepository.getRecentSnapshots`: rows of the pair ordered by
date DESC, LIMIT `days`. -/
def getRecentSnapshots (st : SignalStore) (g s t : String) (days : Nat) :
    List DailySnapshot :=
  (sortLe dateDesc (st.snapshots.filter
      (fun x => x.guild_id == g && x.source_user_id == s && x.target_user_id == t))).take days

/-- The reduce over `concerning_count` used by `calculateTrend`. -/
def sumConcerning (l : List DailySnapshot) : Nat :=
  l.foldl (fun acc s => acc + s.concerning_count) 0

/-- `calculateTrend` from src/database/signals.ts.  Returns -1 improving,
0 stable, 1 worsening. -/
def calculateTrend (snapshots : List DailySnapshot) : Int :=
  if snapshots.length < 7 then 0
  else
    let recent := snapshots.take 7
    let previous := (snapshots.drop 7).take 7
    if previous.length < 7 then 0
    else
      let recentAvg : Rat := (sumConcerning recent : Rat) / (recent.length : Rat)
      let previousAvg : Rat := (sumConcerning previous : Rat) / (previous.length : Rat)
      let change := recentAvg - previousAvg
      if change > 1/2 then 1
      else if change < -(1/2 : Rat) then -1
      else 0

/-! ### SignalAggregator (src/context/aggregator.ts) -/

/-- `SignalAggregator.severityToNumber`. -/
def severityToNumber : Severity → Nat
  | .low => 1
  | .medium => 2
  | .high => 3

/-- The issue-breakdown update: `if (issueKey in issueBreakdown)
issueBreakdown[issueKey]++` — an unrecognised key leaves every bucket
untouched. -/
def bumpIssue (ib : IssueBreakdown) (issueType : String) : IssueBreakdown :=
  if issueType == "discrimination" then { ib with discrimination := ib.discrimination + 1 }
  else if issueType == "harassment" then { ib with harassment := ib.harassment + 1 }
  else if issueType == "bullying" then { ib with bullying := ib.bullying + 1 }
  else if issueType == "implicit_bias" then { ib with implicit_bias := ib.implicit_bias + 1 }
  else if issueType == "labeling" then { ib with labeling := ib.labeling + 1 }
  else if issueType == "targeting" then { ib with targeting := ib.targeting + 1 }
  else if issueType == "inappropriate" then { ib with inappropriate := ib.inappropriate + 1 }
  else ib

def bumpSeverity (sb : SeverityBreakdown) : Severity → SeverityBreakdown
  | .low => { sb with low := sb.low + 1 }
  | .medium => { sb with medium := sb.medium + 1 }
  | .high => { sb with high := sb.high + 1 }

def emptyIssueBreakdown : IssueBreakdown := ⟨0, 0, 0, 0, 0, 0, 0⟩

def emptySeverityBreakdown : SeverityBreakdown := ⟨0, 0, 0⟩

/-- The daily snapshot row written by `recordAnalysis` for the current
calendar day: this single verdict's contribution. -/
def snapshotOfVerdict (g s t today : String) (r : AnalysisResult) : DailySnapshot :=
  { guild_id := g
    source_user_id := s
    target_user_id := t
    date := today
    interaction_count := 1
    concerning_count := if r.isConcerning then 1 else 0
    avg_severity := if r.isConcerning then (severityToNumber r.severity : Rat) else 0
    primary_issue_type := if r.isConcerning then some r.issueType else none }

/-- The updated `UserSignal` computed by `recordAnalysis` before it is
upserted: counters, breakdowns, running confidence mean and the trend
recomputed from the 30 most recent snapshots (after the snapshot write). -/
def updatedSignalOf (st : SignalStore) (g s t : String) (r : AnalysisResult)
    (now : Int) (today : String) : UserSignal :=
  let existingSignal := getSignal st g s t
  let issueBreakdown0 := (existingSignal.map (·.issue_breakdown)).getD emptyIssueBreakdown
  let severityBreakdown0 :=
    (existingSignal.map (·.severity_breakdown)).getD emptySeverityBreakdown
  let totalInteractions0 := (existingSignal.map (·.total_interactions)).getD 0
  let concerningCount0 := (existingSignal.map (·.concerning_count)).getD 0
  let totalConfidence0 : Rat :=
    (existingSignal.map (fun x => x.avg_confidence * (x.concerning_count : Rat))).getD 0
  let firstSeen := (existingSignal.map (·.first_seen)).getD now
  let totalInteractions := totalInteractions0 + 1
  let concerningCount := if r.isConcerning then concerningCount0 + 1 else concerningCount0
  let totalConfidence :=
    if r.isConcerning then totalConfidence0 + r.confidence else totalConfidence0
  let issueBreakdown :=
    if r.isConcerning && r.issueType != "none" then bumpIssue issueBreakdown0 r.issueType
    else issueBreakdown0
  let severityBreakdown :=
    if r.isConcerning then bumpSeverity severityBreakdown0 r.severity
    else severityBreakdown0
  let avgConfidence : Rat :=
    if concerningCount > 0 then totalConfidence / (concerningCount : Rat) else 0
  { guild_id := g
    source_user_id := s
    target_user_id := t
    total_interactions := totalInteractions
    concerning_count := concerningCount
    issue_breakdown := issueBreakdown
    severity_breakdown := severityBreakdown
    avg_confidence := avgConfidence
    trend := calculateTrend
      (getRecentSnapshots (recordSnapshot st (snapshotOfVerdict g s t today r)) g s t 30)
    first_seen := firstSeen
    last_seen := now
    last_aggregated := now }

/-- `SignalAggregator.checkConcernThreshold` alert thresholds. -/
def concernThresholds : List Nat := [3, 5, 10, 20]

/-- `SignalAggregator.checkConcernThreshold`: the previous count
(`previous?.concerning_count ?? 0`) is strictly below some threshold the
current count reaches. -/
def checkConcernThreshold (previous : Option UserSignal) (current : UserSignal) : Bool :=
  concernThresholds.any fun threshold =>
    decide ((previous.map (·.concerning_count)).getD 0 < threshold) &&
      decide (threshold ≤ current.concerning_count)

structure AggregationResult where
  signalUpdated : Bool
  signal : Option UserSignal
  isNewConcern : Bool
  trendChanged : Bool
deriving Repr, DecidableEq

/-- `SignalAggregator.recordAnalysis`.  `now` and `today` stand for
`Date.now()` and the current calendar day string. -/
def recordAnalysis (st : SignalStore) (g s t : String) (r : AnalysisResult)
    (now : Int) (today : String) : SignalStore × AggregationResult :=
  let existingSignal := getSignal st g s t
  let previousTrend : Int := (existingSignal.map (·.trend)).getD 0
  let st1 := recordSnapshot st (snapshotOfVerdict g s t today r)
  let updatedSignal := updatedSignalOf st g s t r now today
  let st2 := upsertSignal st1 updatedSignal
  let isNewConcern := checkConcernThreshold existingSignal updatedSignal
  let trendChanged := (previousTrend != updatedSignal.trend) && (updatedSignal.trend == 1)
  (st2,
   { signalUpdated := true
     signal := getSignal st2 g s t
     isNewConcern := isNewConcern
     trendChanged := trendChanged })

/-- A sequence of `recordAnalysis` calls for one directional pair; each
call carries its verdict, its `Date.now()` value and its calendar day. -/
def foldRecord (st : SignalStore) (g s t : String)
    (calls : List (AnalysisResult × Int × String)) : SignalStore :=
  calls.foldl (fun acc c => (recordAnalysis acc g s t c.1 c.2.1 c.2.2).1) st

/-- The `isNewConcern` flags returned along a sequence of
`recordAnalysis` calls for one pair, in call order. -/
def concernFlags (st : SignalStore) (g s t : String)
    (calls : List (AnalysisResult × Int × String)) : List Bool :=
  (calls.foldl
    (fun (p : SignalStore × List Bool) c =>
      ((recordAnalysis p.1 g s t c.1 c.2.1 c.2.2).1,
        p.2 ++ [(recordAnalysis p.1 g s t c.1 c.2.1 c.2.2).2.isNewConcern]))
    (st, [])).2

/-- The stored concerning count of a pair before a call
(`previous?.concerning_count ?? 0`). -/
def prevConcerning (st : SignalStore) (g s t : String) : Nat :=
  ((getSignal st g s t).map (·.concerning_count)).getD 0

/-- A snapshot of the concrete pair used in the examples, with a given
`concerning_count`. -/
def snapWithCount (c : Nat) : DailySnapshot :=
  ⟨"G", "A", "B", "d", 1, c, 0, none⟩

def seqNonConcern : AnalysisResult := ⟨false, Severity.low, "none", 0⟩

def seqConcern : AnalysisResult := ⟨true, Severity.medium, "harassment", 9/10⟩

/-- Six verdicts whose resulting `concerning_count` values are
0, 1, 2, 3, 4, 5. -/
def seqCalls : List (AnalysisResult × Int × String) :=
  [(seqNonConcern, 1, "2025-02-01"), (seqConcern, 2, "2025-02-01"),
   (seqConcern, 3, "2025-02-01"), (seqConcern, 4, "2025-02-01"),
   (seqConcern, 5, "2025-02-01"), (seqConcern, 6, "2025-02-01")]

def trendSnap (d : String) (c : Nat) : DailySnapshot :=
  ⟨"G", "A", "B", d, 1, c, 0, none⟩

/-- A store holding 13 daily snapshots for the pair: a quiet week followed
by six concerning days, so that the next two concerning verdicts both
compute a worsening trend. -/
def trendStore : SignalStore :=
  ⟨[],
   [trendSnap "2025-03-02" 0, trendSnap "2025-03-03" 0, trendSnap "2025-03-04" 0,
    trendSnap "2025-03-05" 0, trendSnap "2025-03-06" 0, trendSnap "2025-03-07" 0,
    trendSnap "2025-03-08" 0, trendSnap "2025-03-09" 2, trendSnap "2025-03-10" 2,
    trendSnap "2025-03-11" 2, trendSnap "2025-03-12" 2, trendSnap "2025-03-13" 2,
    trendSnap "2025-03-14" 2]⟩

/-- The stored total interactions of a pair before a call. -/
def prevTotal (st : SignalStore) (g s t : String) : Nat :=
  ((getSignal st g s t).map (·.total_interactions)).getD 0

/-- The stored issue breakdown of a pair before a call. -/
def prevIssueB (st : SignalStore) (g s t : String) : IssueBreakdown :=
  ((getSignal st g s t).map (·.issue_breakdown)).getD emptyIssueBreakdown

/-- The stored severity breakdown of a pair before a call. -/
def prevSevB (st : SignalStore) (g s t : String) : SeverityBreakdown :=
  ((getSignal st g s t).map (·.severity_breakdown)).getD emptySeverityBreakdown

/-- The accumulated confidence mass the aggregator reconstructs from the
stored signal (`avg_confidence * concerning_count`). -/
def prevTotalConf (st : SignalStore) (g s t : String) : Rat :=
  ((getSignal st g s t).map (fun x => x.avg_confidence * (x.concerning_count : Rat))).getD 0

/-! ### Reference counting functions over a verdict sequence -/

def concerningCalls (calls : List (AnalysisResult × Int × String)) :
    List (AnalysisResult × Int × String) :=
  calls.filter (fun c => c.1.isConcerning)

def specConcCount (calls : List (AnalysisResult × Int × String)) : Nat :=
  (concerningCalls calls).length

def specConfSum (calls : List (AnalysisResult × Int × String)) : Rat :=
  ((concerningCalls calls).map (fun c => c.1.confidence)).sum

def specSevCount (sev : Severity) (calls : List (AnalysisResult × Int × String)) : Nat :=
  (calls.filter (fun c => c.1.isConcerning && c.1.severity == sev)).length

def specIssueCount (ty : String) (calls : List (AnalysisResult × Int × String)) : Nat :=
  (calls.filter (fun c => c.1.isConcerning && c.1.issueType == ty)).length

def specIssueBreakdown (calls : List (AnalysisResult × Int × String)) : IssueBreakdown :=
  ⟨specIssueCount "discrimination" calls, specIssueCount "harassment" calls,
   specIssueCount "bullying" calls, specIssueCount "implicit_bias" calls,
   specIssueCount "labeling" calls, specIssueCount "targeting" calls,
   specIssueCount "inappropriate" calls⟩

def specSevBreakdown (calls : List (AnalysisResult × Int × String)) : SeverityBreakdown :=
  ⟨specSevCount Severity.low calls, specSevCount Severity.medium calls,
   specSevCount Severity.high calls⟩

def specAvgConfidence (calls : List (AnalysisResult × Int × String)) : Rat :=
  if specConcCount calls = 0 then 0
  else specConfSum calls / (specConcCount calls : Rat)

/-! ### Text as codepoint lists (src/context/tracker.ts)

JS strings are handled as lists of Unicode codepoints.  Every character
occurring in the source's keyword and pattern tables lies in the Basic
Multilingual Plane, where JS UTF-16 code units and codepoints coincide. -/

/-- The codepoints of a string. -/
def chars (s : String) : List Nat := s.toList.map Char.toNat

/-- ASCII lower-casing of one codepoint, the fold performed by
`String.prototype.toLowerCase` on the ASCII letters (the only cased
characters in the source tables) and by SQLite's LIKE. -/
def lowN (n : Nat) : Nat := if 65 ≤ n ∧ n ≤ 90 then n + 32 else n

/-- ASCII upper-casing of one codepoint (`String.prototype.toUpperCase`
restricted to ASCII letters). -/
def upN (n : Nat) : Nat := if 97 ≤ n ∧ n ≤ 122 then n - 32 else n

/-- Whether `needle` is a leading segment of the text. -/
def leadsWith : List Nat → List Nat → Bool
  | [], _ => true
  | _ :: _, [] => false
  | a :: u, x :: t => (a == x) && leadsWith u t

/-- Substring containment (`String.prototype.includes`). -/
def hasSub (needle : List Nat) : List Nat → Bool
  | [] => leadsWith needle []
  | x :: t => leadsWith needle (x :: t) || hasSub needle t

/-! ### A small regular-expression evaluator

Only the features used by the source's pattern tables are represented:
literals, classes, the dot, alternation, option, bounded counted dots,
`.*` and `\s*`.  `RxM` evaluates a pattern against a codepoint list in
continuation-passing style; `rxSearch` is the unanchored
`RegExp.prototype.test`. -/

inductive Rx where
  | eps : Rx
  | lit : Nat → Rx
  | cls : List Nat → Rx
  | dot : Rx
  | seq : Rx → Rx → Rx
  | alt : Rx → Rx → Rx
  | opt : Rx → Rx
  | dotStar : Rx
  | wsStar : Rx

/-- JS line terminators, which `.` does not match. -/
def isLineTerm (n : Nat) : Bool := n == 10 || n == 13 || n == 8232 || n == 8233

/-- The JS `\s` class. -/
def isJsWs (n : Nat) : Bool :=
  n == 32 || n == 9 || n == 10 || n == 11 || n == 12 || n == 13 || n == 160 ||
  n == 5760 || (8192 ≤ n && n ≤ 8202) || n == 8232 || n == 8233 || n == 8239 ||
  n == 8287 || n == 12288 || n == 65279

/-- Codepoint comparison, case-insensitively when `ci` is set (the `i`
flag folds the ASCII letters appearing in the source patterns). -/
def chEq (ci : Bool) (p c : Nat) : Bool :=
  if ci then lowN p == lowN c else p == c

/-- Try the continuation on the text and on every proper suffix obtained
by consuming characters satisfying `p`. -/
def starCls (p : Nat → Bool) (k : List Nat → Bool) : List Nat → Bool
  | [] => k []
  | c :: t => k (c :: t) || (p c && starCls p k t)

/-- Backtracking evaluation: does some leading segment of the text match
the pattern, with the rest accepted by the continuation `k`? -/
def rxM (ci : Bool) : Rx → List Nat → (List Nat → Bool) → Bool
  | .eps, s, k => k s
  | .lit _, [], _ => false
  | .lit p, c :: t, k => chEq ci p c && k t
  | .cls _, [], _ => false
  | .cls ps, c :: t, k => ps.any (fun p => chEq ci p c) && k t
  | .dot, [], _ => false
  | .dot, c :: t, k => !(isLineTerm c) && k t
  | .seq a b, s, k => rxM ci a s (fun s2 => rxM ci b s2 k)
  | .alt a b, s, k => rxM ci a s k || rxM ci b s k
  | .opt a, s, k => rxM ci a s k || k s
  | .dotStar, s, k => starCls (fun c => !(isLineTerm c)) k s
  | .wsStar, s, k => starCls isJsWs k s

/-- Unanchored `RegExp.prototype.test`: some suffix has a matching
leading segment. -/
def rxSearch (ci : Bool) (r : Rx) : List Nat → Bool
  | [] => rxM ci r [] (fun _ => true)
  | c :: t => rxM ci r (c :: t) (fun _ => true) || rxSearch ci r t

/-- One table entry: a pattern together with its `i` flag. -/
structure Pat where
  rx : Rx
  ci : Bool

def patTest (p : Pat) (s : List Nat) : Bool := rxSearch p.ci p.rx s

/-! Combinators used to transcribe the source regex literals. -/

/-- A sequence of literal characters. -/
def rxStr (s : String) : Rx :=
  (chars s).foldr (fun c acc => Rx.seq (Rx.lit c) acc) Rx.eps

def rxSeq (l : List Rx) : Rx := l.foldr Rx.seq Rx.eps

def rxAlt : List Rx → Rx
  | [] => Rx.cls []
  | [r] => r
  | r :: rs => Rx.alt r (rxAlt rs)

def altStrs (ss : List String) : Rx := rxAlt (ss.map rxStr)

/-- A counted dot `.` with between `lo` and `hi` repetitions. -/
def anyRep (lo hi : Nat) : Rx :=
  rxSeq (List.replicate lo Rx.dot ++ List.replicate (hi - lo) (Rx.opt Rx.dot))

/-- A case-sensitive literal pattern. -/
def pstr (s : String) : Pat := ⟨rxStr s, false⟩

/-- A case-insensitive literal pattern. -/
def pstri (s : String) : Pat := ⟨rxStr s, true⟩

def pat (r : Rx) : Pat := ⟨r, false⟩

def pati (r : Rx) : Pat := ⟨r, true⟩

/-- The apostrophe character, written by codepoint. -/
def apoS : String := String.singleton (Char.ofNat 39)

/-! ### The trigger tables of src/context/tracker.ts -/

def OBVIOUS_NEGATIVE_KEYWORDS : List String :=
  ["stupid", "idiot", "incompetent", "useless", "pathetic", "terrible",
   "worst", "hate", "disgusting", "annoying", "lazy", "dumb", "fool",
   "バカ", "アホ", "無能", "使えない", "最悪", "ダメ", "クソ",
   "笨", "蠢", "廢物", "無能", "白痴", "垃圾", "爛"]

def LABELING_PATTERNS : List Pat :=
  [pstr "壞習慣",
   pat (rxSeq [rxStr "態度", Rx.opt (rxStr "有"), rxStr "問題"]),
   pat (rxSeq [altStrs ["他", "她", "你"], altStrs ["就是", "一直都是"], rxStr "這樣"]),
   pat (rxSeq [rxStr "老是", altStrs ["這樣", "如此"]]),
   pstr "每次都",
   pstri "bad habit",
   pstri "attitude problem",
   pati (rxSeq [altStrs ["he", "she", "they", "you"], rxStr apoS, Rx.opt (rxStr "s"),
     rxStr " always like ", altStrs ["this", "that"]]),
   pstri "every single time",
   pstr "悪い癖",
   pstr "態度が悪い"]

def ESCALATION_PATTERNS : List Pat :=
  [pat (rxSeq [Rx.opt (rxStr "更"), rxStr "強硬"]),
   pat (rxSeq [rxStr "嚴正", altStrs ["聲明", "警告"]]),
   pat (rxSeq [rxStr "下次再", altStrs ["這樣", "如此"]]),
   pat (rxSeq [rxStr "不", altStrs ["能", "可以"], rxStr "再"]),
   pat (rxSeq [rxStr "最後", Rx.opt (rxStr "一次"), rxStr "警告"]),
   pati (rxSeq [rxStr "more ", altStrs ["firm", "strict", "harsh"]]),
   pstri "formal warning",
   pati (rxSeq [rxStr "last ", altStrs ["chance", "warning"]]),
   pati (rxSeq [rxStr "next time", Rx.dotStar, altStrs ["will", "gonna"]]),
   pstr "厳しく",
   pstr "最後の警告"]

def GENERALIZING_PATTERNS : List Pat :=
  [pat (rxSeq [rxStr "你們", anyRep 0 4, altStrs ["就是", "都是", "總是"], rxStr "這樣"]),
   pat (rxSeq [anyRep 1 4, rxStr "果然"]),
   pat (rxSeq [rxStr "難怪", altStrs ["你", "他", "她"], rxStr "是"]),
   pat (rxSeq [rxStr "老", altStrs ["人", "害", "古板"]]),
   pat (rxSeq [rxStr "年輕人", altStrs ["就是", "都是"]]),
   pat (rxSeq [rxStr "女", altStrs ["人", "生"], altStrs ["就是", "都是", "不行"]]),
   pat (rxSeq [rxStr "男", altStrs ["人", "生"], altStrs ["就是", "都是"]]),
   pati (rxSeq [rxStr "you ", altStrs ["people", "guys", "all"], rxStr " ",
     altStrs ["are", "always"]]),
   pati (rxSeq [rxStr "typical ", Rx.opt (rxStr "of "), altStrs ["you", "them"]]),
   pati (rxSeq [rxStr "no wonder ", altStrs ["you", "they"]]),
   pati (rxSeq [altStrs ["women", "men", "girls", "guys"], rxStr " ",
     altStrs ["are", "always", "never", "can" ++ apoS ++ "t"]]),
   pati (rxSeq [rxStr "old ", altStrs ["people", "folks", "timer"]]),
   pati (rxSeq [rxStr "young ", altStrs ["people", "kids"], rxStr " ",
     altStrs ["are", "always"]]),
   pat (rxSeq [altStrs ["外國人", "外籍"], altStrs ["就是", "都是"]])]

def JUDGMENTAL_PATTERNS : List Pat :=
  [pati (rxSeq [rxStr "你", altStrs ["想", "打算"], rxStr "怎麼帶", Rx.dotStar,
     rxStr "team"]),
   pat (rxSeq [altStrs ["他", "她", "他們"], rxStr "知道", Rx.dotStar, rxStr "嗎",
     Rx.wsStar, Rx.cls (chars "？?")]),
   pat (rxSeq [rxStr "你", altStrs ["有沒有", "是不是"], altStrs ["想過", "考慮過"]]),
   pati (rxSeq [rxStr "how do you ", altStrs ["plan", "intend"], rxStr " to"]),
   pati (rxSeq [rxStr "do", Rx.opt (rxStr "es"), rxStr " ", altStrs ["he", "she", "they"],
     rxStr " ", Rx.opt (rxStr "even "), altStrs ["know", "understand"]]),
   pati (rxSeq [rxStr "have you ", Rx.opt (rxStr "even "),
     altStrs ["thought", "considered"]])]

def INSULT_PATTERNS : List Pat :=
  [pstr "笨蛋", pstr "白癡", pstr "廢物", pstr "累贅", pstr "低能", pstr "智障",
   pat (rxSeq [rxStr "腦", altStrs ["袋", "子"], rxStr "有問題"]),
   pstr "聽不懂人話", pstr "人話都聽不懂",
   pstr "沒用", pstr "沒腦袋", pstr "腦袋裝什麼",
   pstr "你是不是有病", pstr "有毛病",
   pstri "idiot", pstri "moron", pstri "useless",
   pati (rxSeq [rxStr "brain", Rx.opt (rxStr " "), rxStr "dead"]),
   pati (rxSeq [rxStr "what", altStrs [apoS ++ "s", " is"], rxStr " wrong with you"]),
   pstr "馬鹿", pstr "アホ", pstr "役立たず", pstr "使えない奴"]

def COMPETENCE_DENIAL_PATTERNS : List Pat :=
  [pat (rxSeq [rxStr "你", Rx.opt (altStrs ["到底", "根本"]), altStrs ["怎麼", "哪裡"],
     altStrs ["會", "能"]]),
   pat (rxSeq [rxStr "連這", altStrs ["都", "也"], altStrs ["不會", "做不到", "搞不懂"]]),
   pat (rxSeq [rxStr "這", altStrs ["種", "麼"], altStrs ["簡單", "基本"],
     Rx.opt (altStrs ["的事", "的東西"]), rxStr "都", altStrs ["不會", "做不好"]]),
   pat (rxSeq [rxStr "你", Rx.opt (rxStr "的"), rxStr "能力",
     altStrs ["不行", "不夠", "不足", "有問題"]]),
   pat (rxSeq [rxStr "這是基本", altStrs ["常識", "的東西"]]),
   pat (rxSeq [rxStr "你", altStrs ["到底", "究竟"], rxStr "怎麼", altStrs ["想的", "做事"]]),
   pat (rxSeq [rxStr "你", altStrs ["是不是", "到底"], altStrs ["學不會", "聽不懂"]]),
   pstr "現在解釋有什麼用",
   pat (rxSeq [rxStr "誰讓你不", altStrs ["事先", "先"], altStrs ["確認", "檢查"]]),
   pati (rxSeq [rxStr "how ", altStrs ["did", "could"], rxStr " you ",
     Rx.opt (rxStr "even "), rxStr "get this job"]),
   pati (rxSeq [rxStr ("can" ++ apoS ++ "t "), Rx.opt (rxStr "even "), rxStr "do ",
     altStrs ["simple", "basic"]]),
   pstri "what were you thinking",
   pstri "this is basic",
   pat (rxSeq [rxStr "こんな", altStrs ["簡単", "基本的"], rxStr "なこと",
     altStrs ["も", "さえ"]])]

def THREAT_PATTERNS : List Pat :=
  [pat (rxSeq [rxStr "準備", altStrs ["走人", "離職", "滾蛋", "收東西"]]),
   pat (rxSeq [rxStr "別想", altStrs ["升職", "加薪", "升遷"]]),
   pat (rxSeq [rxStr "再", altStrs ["這樣", "出錯", "犯錯"], anyRep 0 6,
     altStrs ["就", "我就", "你就"]]),
   pat (rxSeq [rxStr "向", altStrs ["主管", "老闆", "HR", "人資"], rxStr "報告"]),
   pat (rxSeq [rxStr "你", altStrs ["最好", "給我"], altStrs ["不要", "別"], rxStr "再"]),
   pat (rxSeq [rxStr "這", altStrs ["件事", "次"], rxStr "搞砸", anyRep 0 4, rxStr "你就"]),
   pat (rxSeq [rxStr "看你", altStrs ["還能", "能"], rxStr "待多久"]),
   pstr "走著瞧",
   pat (rxSeq [rxStr "你", altStrs ["完蛋", "死定"], rxStr "了"]),
   pati (rxSeq [rxStr "you", altStrs [apoS ++ "re", " are"], rxStr " ",
     altStrs ["fired", "done", "finished"]]),
   pati (rxSeq [rxStr "start ", altStrs ["looking", "packing"]]),
   pati (rxSeq [rxStr "forget about ", altStrs ["promotion", "raise"]]),
   pati (rxSeq [rxStr "i", altStrs [apoS ++ "ll", " will"], rxStr " report ",
     altStrs ["this", "you"]]),
   pati (rxSeq [rxStr "you", altStrs [apoS ++ "d", " had"], rxStr " better ",
     altStrs ["not", "watch"]]),
   pat (rxSeq [rxStr "クビ", altStrs ["にする", "だ"]]),
   pstr "辞めろ", pstr "覚えておけ"]

def GENDER_BIAS_PATTERNS : List Pat :=
  [pat (rxSeq [rxStr "女", altStrs ["生", "人", "性"],
     altStrs ["就是", "不適合", "做不來", "不懂"]]),
   pat (rxSeq [rxStr "男", altStrs ["生", "人", "性"], rxStr "才",
     altStrs ["能", "會", "適合", "懂"]]),
   pat (rxSeq [rxStr "懷孕", altStrs ["還", "就"], altStrs ["來", "敢", "要"]]),
   pat (rxSeq [rxStr "什麼時候", altStrs ["結婚", "生小孩", "生孩子"]]),
   pat (rxSeq [altStrs ["結婚", "生小孩", "生孩子"], altStrs ["了嗎", "沒"]]),
   pstr "女子無才便是德",
   pat (rxSeq [rxStr "女生", Rx.opt (rxStr "就是"), rxStr "愛", altStrs ["耍", "玩"],
     rxStr "心機"]),
   pat (rxSeq [rxStr "女生就是", altStrs ["麻煩", "囉嗦", "情緒化"]]),
   pat (rxSeq [rxStr "男生", altStrs ["比較", "就是比"], altStrs ["適合", "懂", "厲害"]]),
   pat (rxSeq [rxStr "這是", altStrs ["男生", "女生"], rxStr "的", altStrs ["工作", "事"]]),
   pati (rxSeq [rxStr "women ", altStrs ["are", "can" ++ apoS ++ "t",
     "don" ++ apoS ++ "t", "shouldn" ++ apoS ++ "t"]]),
   pati (rxSeq [rxStr "men are ", altStrs ["better", "more", "just"]]),
   pati (rxSeq [rxStr "she", altStrs [apoS ++ "s", " is"], rxStr " ",
     Rx.opt (rxStr "too "), rxStr "emotional"]),
   pati (rxSeq [rxStr "typical ", altStrs ["woman", "girl", "female"]]),
   pstri "man up",
   pstri "boys will be boys",
   pat (rxSeq [rxStr "女", altStrs ["だから", "のくせに"]]),
   pat (rxSeq [rxStr "男", altStrs ["なら", "だから"]])]

def AGE_BIAS_PATTERNS : List Pat :=
  [pat (rxSeq [rxStr "年紀大", Rx.opt (rxStr "了"), rxStr "就"]),
   pat (rxSeq [rxStr "老", altStrs ["了", "人家"], altStrs ["就", "跟不上", "學不會"]]),
   pat (rxSeq [rxStr "老", altStrs ["人", "員工"], altStrs ["就是", "都是", "不行"]]),
   pat (rxSeq [altStrs ["該", "應該"], altStrs ["退休", "讓位", "讓年輕人"], rxStr "了"]),
   pstr "老古板", pstr "老頑固", pstr "倚老賣老",
   pat (rxSeq [rxStr "年輕人", altStrs ["就是", "太", "都是"],
     altStrs ["不懂事", "嫩", "草莓"]]),
   pat (rxSeq [rxStr "小孩子", altStrs ["懂", "知道"], rxStr "什麼"]),
   pstr "草莓族", pstr "玻璃心",
   pstr "吃不了苦",
   pat (rxSeq [rxStr "抗壓", altStrs ["性", "力"], altStrs ["差", "不夠", "低"]]),
   pat (rxSeq [rxStr "現在", Rx.opt (rxStr "的"), rxStr "年輕人"]),
   pati (rxSeq [rxStr "too old ", altStrs ["to", "for"]]),
   pati (rxSeq [rxStr "old ", altStrs ["timer", "dog", "school"]]),
   pati (rxSeq [rxAlt [rxStr "kids", rxStr "millennials",
     rxSeq [rxStr "gen", Rx.opt (rxStr " "), rxStr "z"]], rxStr " ",
     altStrs ["these days", "are", "don" ++ apoS ++ "t"]]),
   pstri "back in my day",
   pati (rxSeq [rxStr "young", Rx.opt (rxStr "er"), rxStr " ",
     altStrs ["people", "generation"], rxStr " ",
     altStrs ["are", "don" ++ apoS ++ "t", "can" ++ apoS ++ "t"]]),
   pat (rxSeq [rxStr "年寄り", altStrs ["は", "だから"]]),
   pat (rxSeq [rxStr "若い", altStrs ["奴", "者"], altStrs ["は", "なんて"]])]

def CONDESCENDING_PATTERNS : List Pat :=
  [pat (rxSeq [rxStr "你", altStrs ["應該", "要"], Rx.opt (rxStr "多"),
     altStrs ["檢討", "反省"], Rx.opt (rxStr "自己")]),
   pat (rxSeq [rxStr "聽我的", altStrs ["準沒錯", "就對了", "沒錯"]]),
   pat (rxSeq [rxStr "我是為", altStrs ["你", "妳"], rxStr "好"]),
   pat (rxSeq [altStrs ["吃苦", "辛苦"], altStrs ["是", "當"],
     altStrs ["應該的", "吃補", "福氣"]]),
   pat (rxSeq [rxStr "年輕", altStrs ["人", "的時候"], rxStr "就",
     altStrs ["是", "該", "要"], Rx.opt (rxStr "多"), rxStr "吃",
     Rx.opt (rxStr "點"), rxStr "苦"]),
   pat (rxSeq [rxStr "別", altStrs ["想", "說"], rxStr "那麼多"]),
   pat (rxSeq [rxStr "你", altStrs ["這樣", "那樣"], altStrs ["怎麼", "哪能"],
     altStrs ["行", "可以"]]),
   pat (rxSeq [rxStr "我", altStrs ["都是", "這樣"], altStrs ["過來的", "熬過來的"]]),
   pat (rxSeq [rxStr "不要", altStrs ["老是", "一直", "總是"], rxStr "抱怨"]),
   pati (rxSeq [rxStr "you should ", Rx.opt (rxStr "really "), rxStr "reflect"]),
   pati (rxSeq [rxStr "i", altStrs [apoS ++ "m", " am"], rxStr " ",
     Rx.opt (rxStr "just "), rxStr "trying to help"]),
   pati (rxSeq [rxStr "trust me ", altStrs ["on this", "i know"]]),
   pstri "when i was your age",
   pstri "stop complaining",
   pati (rxSeq [rxStr ("that" ++ apoS ++ "s "), Rx.opt (rxStr "just "),
     rxStr "how it ", altStrs ["is", "works"]]),
   pat (rxSeq [rxStr "俺", altStrs ["の言う通り", "が正しい"]]),
   pat (rxSeq [rxStr "文句", altStrs ["を", "ばかり"], rxStr "言う"])]

def DISMISSIVE_PATTERNS : List Pat :=
  [pat (rxSeq [rxStr "別", altStrs ["大驚小怪", "小題大作"]]),
   pstr "沒什麼大不了",
   pat (rxSeq [rxStr "這", altStrs ["有什麼", "算什麼"], altStrs ["好", "值得"]]),
   pat (rxSeq [rxStr "想太多", Rx.opt (rxStr "了")]),
   pat (rxSeq [rxStr "日子", altStrs ["還不是", "不還是"], altStrs ["得", "要"],
     rxStr "過"]),
   pat (rxSeq [rxStr "抗壓性", altStrs ["太差", "不夠"]]),
   pat (rxSeq [rxStr "這", altStrs ["點", "麼點"], altStrs ["小事", "事情"]]),
   pstr "玻璃心",
   pati (rxSeq [rxStr ("don" ++ apoS ++ "t "), Rx.opt (rxStr "be so "),
     rxStr "dramatic"]),
   pati (rxSeq [rxStr "you", altStrs [apoS ++ "re", " are"], rxStr " over",
     Rx.opt (rxStr " "), rxStr "react"]),
   pati (rxSeq [rxStr ("it" ++ apoS ++ "s not "), Rx.opt (rxStr "a "),
     rxStr "big deal"]),
   pati (rxSeq [rxStr "just ", altStrs ["deal", "live"], rxStr " with it"]),
   pati (rxSeq [rxStr "stop being ", Rx.opt (rxStr "so "),
     altStrs ["sensitive", "dramatic"]]),
   pstr "大げさ", pstr "気にしすぎ"]

def PUBLIC_HUMILIATION_PATTERNS : List Pat :=
  [pat (rxSeq [altStrs ["大家", "各位", "你們"], altStrs ["看看", "評評理"]]),
   pat (rxSeq [rxStr "讓", altStrs ["大家", "他們"], altStrs ["看看", "知道"]]),
   pat (rxSeq [rxStr "這", altStrs ["種", "樣的"], altStrs ["人", "員工", "表現"]]),
   pat (rxSeq [altStrs ["我", "咱們", "我們"], rxStr "來", altStrs ["看看", "說說"]]),
   pati (rxSeq [rxStr "everyone", Rx.opt (rxStr ","), rxStr " ",
     altStrs ["look", "see"]]),
   pati (rxSeq [rxStr "let me ", altStrs ["show", "tell"], rxStr " everyone"]),
   pati (rxSeq [rxStr "this is ", altStrs ["what", "how"], rxStr " ",
     altStrs ["you", "they"]])]

/-! ### The trigger classifier (`ContextTracker.checkTrigger`) -/

def hasObviousNegative (cs : List Nat) : Bool :=
  OBVIOUS_NEGATIVE_KEYWORDS.any fun kw => hasSub ((chars kw).map lowN) (cs.map lowN)

def hasLabelingPattern (cs : List Nat) : Bool :=
  LABELING_PATTERNS.any fun p => patTest p cs

def hasEscalationPattern (cs : List Nat) : Bool :=
  ESCALATION_PATTERNS.any fun p => patTest p cs

def hasGeneralizingPattern (cs : List Nat) : Bool :=
  GENERALIZING_PATTERNS.any fun p => patTest p cs

def hasJudgmentalPattern (cs : List Nat) : Bool :=
  JUDGMENTAL_PATTERNS.any fun p => patTest p cs

def hasInsultPattern (cs : List Nat) : Bool :=
  INSULT_PATTERNS.any fun p => patTest p cs

def hasCompetenceDenial (cs : List Nat) : Bool :=
  COMPETENCE_DENIAL_PATTERNS.any fun p => patTest p cs

def hasThreatPattern (cs : List Nat) : Bool :=
  THREAT_PATTERNS.any fun p => patTest p cs

def hasGenderBias (cs : List Nat) : Bool :=
  GENDER_BIAS_PATTERNS.any fun p => patTest p cs

def hasAgeBias (cs : List Nat) : Bool :=
  AGE_BIAS_PATTERNS.any fun p => patTest p cs

def hasCondescending (cs : List Nat) : Bool :=
  CONDESCENDING_PATTERNS.any fun p => patTest p cs

def hasDismissive (cs : List Nat) : Bool :=
  DISMISSIVE_PATTERNS.any fun p => patTest p cs

def hasPublicHumiliation (cs : List Nat) : Bool :=
  PUBLIC_HUMILIATION_PATTERNS.any fun p => patTest p cs

/-- `content.match(/!/g)?.length ?? 0`. -/
def exclCount (cs : List Nat) : Nat := (cs.filter (fun c => c == 33)).length

/-- Aggressive tone: at least three exclamation marks, or text longer
than 10 characters that equals its own upper-cased form. -/
def hasAggressiveTone (cs : List Nat) : Bool :=
  decide (3 ≤ exclCount cs) || (decide (10 < cs.length) && cs == cs.map upN)

/-- Counterpart resolution `replyToAuthorId ?? mentions[0]`. -/
def resolveTarget (replyToAuthorId : Option String) (mentions : List String) :
    Option String :=
  match replyToAuthorId with
  | some r => some r
  | none => mentions.head?

/-- JS truthiness of the resolved counterpart: present and not the empty
string. -/
def truthy : Option String → Bool
  | none => false
  | some s => !(s == "")

structure AnalysisTrigger where
  shouldAnalyze : Bool
  reason : String
  targetUserId : Option String
deriving Repr, DecidableEq

/-- The body of `ContextTracker.checkTrigger` over the already-resolved
`targetUserId` binding: the ordered cascade of category matchers.
Targeted categories additionally require a truthy resolved counterpart;
the others fall back to the author as their own subject. -/
def checkTriggerCore (content authorId : String) (targetUserId : Option String) :
    AnalysisTrigger :=
  if truthy targetUserId && (targetUserId == some authorId) then
    ⟨false, "Self-mention", none⟩
  else if hasObviousNegative (chars content) && truthy targetUserId then
    ⟨true, "Obvious negative keyword detected", targetUserId⟩
  else if hasLabelingPattern (chars content) then
    ⟨true, "Labeling pattern detected (turning behavior into personality trait)",
      some (targetUserId.getD authorId)⟩
  else if hasEscalationPattern (chars content) then
    ⟨true, "Escalation language detected", some (targetUserId.getD authorId)⟩
  else if hasGeneralizingPattern (chars content) then
    ⟨true, "Generalizing/implicit bias pattern detected",
      some (targetUserId.getD authorId)⟩
  else if hasJudgmentalPattern (chars content) && truthy targetUserId then
    ⟨true, "Judgmental/leading question detected", targetUserId⟩
  else if hasInsultPattern (chars content) then
    ⟨true, "Direct personal insult detected (人身攻擊)",
      some (targetUserId.getD authorId)⟩
  else if hasCompetenceDenial (chars content) && truthy targetUserId then
    ⟨true, "Competence denial detected (能力否定)", targetUserId⟩
  else if hasThreatPattern (chars content) then
    ⟨true, "Threat/intimidation detected (威脅恐嚇)",
      some (targetUserId.getD authorId)⟩
  else if hasGenderBias (chars content) then
    ⟨true, "Gender discrimination detected (性別歧視)",
      some (targetUserId.getD authorId)⟩
  else if hasAgeBias (chars content) then
    ⟨true, "Age discrimination detected (年齡歧視)",
      some (targetUserId.getD authorId)⟩
  else if hasCondescending (chars content) && truthy targetUserId then
    ⟨true, "Condescending/patronizing language detected (說教貶低)", targetUserId⟩
  else if hasDismissive (chars content) && truthy targetUserId then
    ⟨true, "Dismissive/minimizing language detected (冷漠忽視)", targetUserId⟩
  else if hasPublicHumiliation (chars content) && truthy targetUserId then
    ⟨true, "Public humiliation pattern detected (公開羞辱)", targetUserId⟩
  else if hasAggressiveTone (chars content) && truthy targetUserId then
    ⟨true, "Aggressive tone detected", targetUserId⟩
  else ⟨false, "No concerning patterns detected", none⟩

/-- `ContextTracker.checkTrigger`: resolve the counterpart, then run the
matcher cascade. -/
def checkTrigger (content authorId : String) (mentions : List String)
    (replyToAuthorId : Option String) : AnalysisTrigger :=
  checkTriggerCore content authorId (resolveTarget replyToAuthorId mentions)

/-- The disjunction of every category matcher of `checkTrigger`
(including the aggressive-tone test), used to state the claims about
pattern-matching content. -/
def matchesAnyCategory (cs : List Nat) : Bool :=
  hasObviousNegative cs || hasLabelingPattern cs || hasEscalationPattern cs ||
  hasGeneralizingPattern cs || hasJudgmentalPattern cs || hasInsultPattern cs ||
  hasCompetenceDenial cs || hasThreatPattern cs || hasGenderBias cs ||
  hasAgeBias cs || hasCondescending cs || hasDismissive cs ||
  hasPublicHumiliation cs || hasAggressiveTone cs

/-! ### The message repository (MessageRepository) -/

/-- A row of the `messages` table.  The `mentions` column holds the
JSON-encoded user-ID array; it is modelled structurally, with `jencode`
below reproducing the stored text where the SQL queries inspect it. -/
structure StoredMessage where
  id : String
  guild_id : String
  channel_id : String
  author_id : String
  content : String
  timestamp : Int
  reply_to_id : Option String
  reply_to_author_id : Option String
  mentions : List String
deriving Repr, DecidableEq

/-- The record shape `getContextBetweenUsers` returns (mentions parsed). -/
structure ContextMessage where
  id : String
  channel_id : String
  author_id : String
  content : String
  timestamp : Int
  reply_to_id : Option String
  reply_to_author_id : Option String
  mentions : List String
deriving Repr, DecidableEq

structure MessageStore where
  messages : List StoredMessage
deriving Repr, DecidableEq

/-- `MessageRepository.getById` (`id` is the primary key). -/
def getById (ms : MessageStore) (id : String) : Option StoredMessage :=
  ms.messages.find? (fun m => m.id == id)

/-- Lower-case hex digit codepoint. -/
def hexDig (k : Nat) : Nat := if k < 10 then 48 + k else 87 + k

/-- JSON string escaping of one codepoint (`JSON.stringify`). -/
def escCode (n : Nat) : List Nat :=
  if n = 34 then [92, 34]
  else if n = 92 then [92, 92]
  else if n = 8 then [92, 98]
  else if n = 9 then [92, 116]
  else if n = 10 then [92, 110]
  else if n = 12 then [92, 102]
  else if n = 13 then [92, 114]
  else if n < 32 then [92, 117, 48, 48, hexDig (n / 16), hexDig (n % 16)]
  else [n]

def escStr (s : String) : List Nat := (chars s).foldr (fun c acc => escCode c ++ acc) []

/-- The text after the opening bracket of the JSON array encoding. -/
def jbody : List String → List Nat
  | [] => [93]
  | e :: es => 34 :: (escStr e ++ 34 :: (if es.isEmpty then [93] else 44 :: jbody es))

/-- The stored text of the `mentions` column: `JSON.stringify` of the
user-ID array, as codepoints. -/
def jencode (l : List String) : List Nat := 91 :: jbody l

def anyTail (f : List Nat → Bool) : List Nat → Bool
  | [] => f []
  | c :: t => f (c :: t) || anyTail f t

/-- SQLite `LIKE`: `%` matches any sequence, `_` any character, and plain
characters compare case-insensitively on ASCII letters. -/
def sqlLike : List Nat → List Nat → Bool
  | [], t => t.isEmpty
  | p :: ps, t =>
    if p = 37 then anyTail (sqlLike ps) t
    else if p = 95 then
      match t with
      | [] => false
      | _ :: ts => sqlLike ps ts
    else
      match t with
      | [] => false
      | c :: ts => (lowN p == lowN c) && sqlLike ps ts

/-- The `mentions LIKE '%"uid"%'` test of `getContextStmt`. -/
def mentionsLike (mentions : List String) (uid : String) : Bool :=
  sqlLike (37 :: 34 :: (chars uid ++ [34, 37])) (jencode mentions)

/-- ORDER BY timestamp ASC. -/
def tsAsc (x y : StoredMessage) : Bool := decide (x.timestamp ≤ y.timestamp)

def toContextMessage (m : StoredMessage) : ContextMessage :=
  ⟨m.id, m.channel_id, m.author_id, m.content, m.timestamp, m.reply_to_id,
   m.reply_to_author_id, m.mentions⟩

/-- `MessageRepository.getContextBetweenUsers`: guild rows in the window
whose author is either user or whose mentions column LIKE-matches either
quoted ID, ordered by timestamp ascending, LIMIT `limit`. -/
def getContextBetweenUsers (ms : MessageStore) (guildId userAId userBId : String)
    (sinceTimestamp : Int) (limit : Nat) : List ContextMessage :=
  ((sortLe tsAsc (ms.messages.filter (fun m =>
      m.guild_id == guildId && decide (sinceTimestamp ≤ m.timestamp) &&
        (m.author_id == userAId || m.author_id == userBId ||
         mentionsLike m.mentions userAId ||
         mentionsLike m.mentions userBId)))).take limit).map toContextMessage

/-! ### The context builder (`ContextTracker.buildContext`) -/

structure ContextEntry where
  messageId : String
  channelId : String
  channelName : Option String
  authorId : String
  authorName : Option String
  content : String
  timestamp : Int
  isReply : Bool
  isMention : Bool
  mentionedUsers : List String
deriving Repr, DecidableEq

structure ContextChain where
  triggerMessage : ContextEntry
  contextMessages : List ContextEntry
  involvedUsers : List String
  timeSpanMinutes : Int
deriving Repr, DecidableEq

/-- `ContextTracker.toContextEntry`; the name caches are threaded in as
lookup functions. -/
def toContextEntry (channelNames userNames : String → Option String)
    (m : ContextMessage) : ContextEntry :=
  ⟨m.id, m.channel_id, channelNames m.channel_id, m.author_id, userNames m.author_id,
   m.content, m.timestamp, !(m.reply_to_id == none),
   decide (0 < m.mentions.length), m.mentions⟩

/-- `ContextTracker.storedMessageToContextEntry`. -/
def storedToContextEntry (channelNames userNames : String → Option String)
    (m : StoredMessage) : ContextEntry :=
  ⟨m.id, m.channel_id, channelNames m.channel_id, m.author_id, userNames m.author_id,
   m.content, m.timestamp, !(m.reply_to_id == none),
   decide (0 < m.mentions.length), m.mentions⟩

/-- `Math.min(...l)` over a nonempty spread (the empty case is unused). -/
def listMin : List Int → Int
  | [] => 0
  | x :: t => t.foldl min x

def listMax : List Int → Int
  | [] => 0
  | x :: t => t.foldl max x

/-- `Math.round` for the nonnegative values arising here. -/
def jsRound (q : Rat) : Int := ⌊q + 1/2⌋

/-- `[...new Set(l)]`: deduplication keeping first occurrences. -/
def jsDedup (l : List String) : List String :=
  l.foldl (fun acc x => if x ∈ acc then acc else acc ++ [x]) []

/-- `ContextTracker.buildContext`.  `now` stands for `Date.now()` and
`contextWindowHours` for the configuration value. -/
def buildContext (ms : MessageStore)
    (guildId triggerMessageId authorId targetUserId : String)
    (now : Int) (contextWindowHours : Int)
    (channelNames userNames : String → Option String) : Option ContextChain :=
  match getById ms triggerMessageId with
  | none => none
  | some triggerMessage =>
    let contextMessages := getContextBetweenUsers ms guildId authorId targetUserId
      (now - contextWindowHours * 60 * 60 * 1000) 100
    if contextMessages.length == 0 then none
    else
      let entries := contextMessages.map (toContextEntry channelNames userNames)
      let triggerEntry := storedToContextEntry channelNames userNames triggerMessage
      let timestamps := entries.map (·.timestamp)
      let minTime := listMin timestamps
      let maxTime := listMax (timestamps ++ [triggerEntry.timestamp])
      let timeSpanMinutes := jsRound (((maxTime - minTime : Int) : Rat) / (60 * 1000))
      let involvedUsers := jsDedup (entries.map (·.authorId) ++
        entries.flatMap (·.mentionedUsers))
      some ⟨triggerEntry, entries, involvedUsers, timeSpanMinutes⟩

/-! ### Reference predicates for the context queries -/

/-- Case-insensitive (ASCII) equality of codepoint lists. -/
def ciEqN : List Nat → List Nat → Bool
  | [], [] => true
  | a :: u, x :: e => (lowN a == lowN x) && ciEqN u e
  | _, _ => false

/-- Equality of strings up to ASCII letter case. -/
def ciEqStr (u e : String) : Bool := ciEqN (chars u) (chars e)

/-- Case-insensitive prefix test. -/
def leadCI : List Nat → List Nat → Bool
  | [], _ => true
  | _ :: _, [] => false
  | a :: u, x :: t => (lowN a == lowN x) && leadCI u t

/-- Case-insensitive substring test. -/
def ciSub (p : List Nat) : List Nat → Bool
  | [] => leadCI p []
  | x :: t => leadCI p (x :: t) || ciSub p t

/-- IDs for which the LIKE match coincides with list membership: no
double quote, backslash, percent, underscore or comma. -/
def idWf (s : String) : Prop :=
  ∀ n ∈ chars s, n ≠ 34 ∧ n ≠ 92 ∧ n ≠ 37 ∧ n ≠ 95 ∧ n ≠ 44

/-- Mention entries whose JSON encoding needs no escaping: no double
quote, backslash or control character. -/
def elemWf (s : String) : Prop :=
  ∀ n ∈ chars s, n ≠ 34 ∧ n ≠ 92 ∧ 32 ≤ n

/-- The reference mention test: some entry equals the ID up to ASCII
letter case. -/
def mentionsContainCI (mentions : List String) (uid : String) : Bool :=
  mentions.any (fun e => ciEqStr uid e)

/-- The claim-side description of the context query: same window, cap and
order, with mention membership in place of the LIKE match. -/
def specContextList (ms : MessageStore) (guildId userAId userBId : String)
    (sinceTimestamp : Int) (limit : Nat) : List ContextMessage :=
  ((sortLe tsAsc (ms.messages.filter (fun m =>
      m.guild_id == guildId && decide (sinceTimestamp ≤ m.timestamp) &&
        (m.author_id == userAId || m.author_id == userBId ||
         mentionsContainCI m.mentions userAId ||
         mentionsContainCI m.mentions userBId)))).take limit).map toContextMessage

/-- The claim-side time span: round((max over context and trigger - min
over context) / 60000). -/
def specSpan (ms : MessageStore) (guildId triggerMessageId authorId targetUserId : String)
    (now : Int) (contextWindowHours : Int) : Int :=
  match getById ms triggerMessageId with
  | none => 0
  | some trig =>
      jsRound ((((listMax ((getContextBetweenUsers ms guildId authorId targetUserId
          (now - contextWindowHours * 60 * 60 * 1000) 100).map (·.timestamp)
          ++ [trig.timestamp]))
        - listMin ((getContextBetweenUsers ms guildId authorId targetUserId
          (now - contextWindowHours * 60 * 60 * 1000) 100).map (·.timestamp)) : Int) : Rat)
        / 60000)

/-- The claim-side involved users: deduplicated union of every context
message's author and every mentioned user. -/
def specUsers (ms : MessageStore) (guildId authorId targetUserId : String)
    (now : Int) (contextWindowHours : Int) : List String :=
  jsDedup ((getContextBetweenUsers ms guildId authorId targetUserId
      (now - contextWindowHours * 60 * 60 * 1000) 100).map (·.author_id) ++
    (getContextBetweenUsers ms guildId authorId targetUserId
      (now - contextWindowHours * 60 * 60 * 1000) 100).flatMap (·.mentions))

/-- The trigger message of the end-to-end scenario: a generalizing remark
by A mentioning B, with no other messages stored. -/
def scnMsg : StoredMessage :=
  ⟨"m1", "G", "ch", "A", "你們工程師就是這樣", 1000, none, none, ["B"]⟩

def scnStore : MessageStore := ⟨[scnMsg]⟩

/-- Counterexample store: a trigger by user a, plus a message by user c
whose mention entry "B" differs from the pair member "b" only in case. -/
def cexTrigger : StoredMessage := ⟨"t1", "G", "ch", "a", "hello", 900, none, none, []⟩

def cexMsg : StoredMessage := ⟨"m1", "G", "ch", "c", "hi", 800, none, none, ["B"]⟩

def cexStore : MessageStore := ⟨[cexTrigger, cexMsg]⟩

/-! ### Basic store lemmas -/

theorem sigKeyMatches_updated (g s t : String) (st : SignalStore) (r : AnalysisResult)
    (now : Int) (today : String) :
    sigKeyMatches g s t (updatedSignalOf st g s t r now today) = true := by
  simp [sigKeyMatches, updatedSignalOf]

theorem getSignal_recordSnapshot (st : SignalStore) (snap : DailySnapshot)
    (g s t : String) :
    getSignal (recordSnapshot st snap) g s t = getSignal st g s t := rfl

theorem getSnapshot_upsertSignal (st : SignalStore) (sig : UserSignal)
    (g s t d : String) :
    getSnapshot (upsertSignal st sig) g s t d = getSnapshot st g s t d := rfl

/-- The stored signal right after an upsert at its own key is the upserted
row, with `first_seen` kept from the previously stored row when one
existed. -/
theorem getSignal_upsert_key (st : SignalStore) (sig : UserSignal) :
    getSignal (upsertSignal st sig) sig.guild_id sig.source_user_id sig.target_user_id =
      some (match getSignal st sig.guild_id sig.source_user_id sig.target_user_id with
            | some old => { sig with first_seen := old.first_seen }
            | none => sig) := by
  unfold upsertSignal
  cases h : getSignal st sig.guild_id sig.source_user_id sig.target_user_id with
  | none =>
      simp only [h, getSignal]
      rw [List.find?_cons_of_pos]
      simp [sigKeyMatches]
  | some old =>
      simp only [h, getSignal]
      rw [List.find?_cons_of_pos]
      simp [sigKeyMatches]

/-- After `recordAnalysis`, the stored signal of the pair is exactly the
updated signal it computed (the upsert's refusal to overwrite `first_seen`
is invisible because the updated signal already carries the stored
`first_seen`). -/
theorem getSignal_recordAnalysis (st : SignalStore) (g s t : String)
    (r : AnalysisResult) (now : Int) (today : String) :
    getSignal (recordAnalysis st g s t r now today).1 g s t =
      some (updatedSignalOf st g s t r now today) := by
  show getSignal (upsertSignal (recordSnapshot st (snapshotOfVerdict g s t today r))
      (updatedSignalOf st g s t r now today)) g s t = _
  have hkey := getSignal_upsert_key
    (recordSnapshot st (snapshotOfVerdict g s t today r))
    (updatedSignalOf st g s t r now today)
  rw [show (updatedSignalOf st g s t r now today).guild_id = g from rfl,
      show (updatedSignalOf st g s t r now today).source_user_id = s from rfl,
      show (updatedSignalOf st g s t r now today).target_user_id = t from rfl,
      show (getSignal (recordSnapshot st (snapshotOfVerdict g s t today r)) g s t)
        = getSignal st g s t from rfl] at hkey
  rw [hkey]
  cases h : getSignal st g s t with
  | none => rfl
  | some old =>
      have hfs : (updatedSignalOf st g s t r now today).first_seen = old.first_seen := by
        simp [updatedSignalOf, h]
      have hg0 : (updatedSignalOf st g s t r now today).guild_id = g := rfl
      have hs0 : (updatedSignalOf st g s t r now today).source_user_id = s := rfl
      have ht0 : (updatedSignalOf st g s t r now today).target_user_id = t := rfl
      congr 1
      cases hu : updatedSignalOf st g s t r now today
      rw [hu] at hfs hg0 hs0 ht0
      simp_all

theorem recordAnalysis_signal_field (st : SignalStore) (g s t : String)
    (r : AnalysisResult) (now : Int) (today : String) :
    (recordAnalysis st g s t r now today).2.signal =
      some (updatedSignalOf st g s t r now today) :=
  getSignal_recordAnalysis st g s t r now today

theorem updatedSignalOf_concerning (st : SignalStore) (g s t : String)
    (r : AnalysisResult) (now : Int) (today : String) :
    (updatedSignalOf st g s t r now today).concerning_count =
      if r.isConcerning then prevConcerning st g s t + 1 else prevConcerning st g s t := rfl

theorem updatedSignalOf_trend (st : SignalStore) (g s t : String)
    (r : AnalysisResult) (now : Int) (today : String) :
    (updatedSignalOf st g s t r now today).trend =
      calculateTrend (getRecentSnapshots
        (recordSnapshot st (snapshotOfVerdict g s t today r)) g s t 30) := rfl

/-! ### Field equations for the breakdown updates -/

theorem bumpIssue_discrimination (ib : IssueBreakdown) (ty : String) :
    (bumpIssue ib ty).discrimination =
      ib.discrimination + if ty == "discrimination" then 1 else 0 := by
  unfold bumpIssue; split_ifs <;> simp_all

theorem bumpIssue_harassment (ib : IssueBreakdown) (ty : String) :
    (bumpIssue ib ty).harassment =
      ib.harassment + if ty == "harassment" then 1 else 0 := by
  unfold bumpIssue; split_ifs <;> simp_all

theorem bumpIssue_bullying (ib : IssueBreakdown) (ty : String) :
    (bumpIssue ib ty).bullying = ib.bullying + if ty == "bullying" then 1 else 0 := by
  unfold bumpIssue; split_ifs <;> simp_all

theorem bumpIssue_implicit_bias (ib : IssueBreakdown) (ty : String) :
    (bumpIssue ib ty).implicit_bias =
      ib.implicit_bias + if ty == "implicit_bias" then 1 else 0 := by
  unfold bumpIssue; split_ifs <;> simp_all

theorem bumpIssue_labeling (ib : IssueBreakdown) (ty : String) :
    (bumpIssue ib ty).labeling = ib.labeling + if ty == "labeling" then 1 else 0 := by
  unfold bumpIssue; split_ifs <;> simp_all

theorem bumpIssue_targeting (ib : IssueBreakdown) (ty : String) :
    (bumpIssue ib ty).targeting = ib.targeting + if ty == "targeting" then 1 else 0 := by
  unfold bumpIssue; split_ifs <;> simp_all

theorem bumpIssue_inappropriate (ib : IssueBreakdown) (ty : String) :
    (bumpIssue ib ty).inappropriate =
      ib.inappropriate + if ty == "inappropriate" then 1 else 0 := by
  unfold bumpIssue; split_ifs <;> simp_all

theorem updatedSignalOf_total (st : SignalStore) (g s t : String)
    (r : AnalysisResult) (now : Int) (today : String) :
    (updatedSignalOf st g s t r now today).total_interactions =
      prevTotal st g s t + 1 := rfl

theorem updatedSignalOf_issueB (st : SignalStore) (g s t : String)
    (r : AnalysisResult) (now : Int) (today : String) :
    (updatedSignalOf st g s t r now today).issue_breakdown =
      if r.isConcerning && r.issueType != "none"
      then bumpIssue (prevIssueB st g s t) r.issueType
      else prevIssueB st g s t := rfl

theorem updatedSignalOf_sevB (st : SignalStore) (g s t : String)
    (r : AnalysisResult) (now : Int) (today : String) :
    (updatedSignalOf st g s t r now today).severity_breakdown =
      if r.isConcerning then bumpSeverity (prevSevB st g s t) r.severity
      else prevSevB st g s t := by
  show (if r.isConcerning = true then _ else _) = _
  cases r.isConcerning <;> rfl

theorem updatedSignalOf_avg (st : SignalStore) (g s t : String)
    (r : AnalysisResult) (now : Int) (today : String) :
    (updatedSignalOf st g s t r now today).avg_confidence =
      if 0 < (if r.isConcerning then prevConcerning st g s t + 1
              else prevConcerning st g s t) then
        (if r.isConcerning then prevTotalConf st g s t + r.confidence
         else prevTotalConf st g s t) /
        (((if r.isConcerning then prevConcerning st g s t + 1
           else prevConcerning st g s t) : Nat) : Rat)
      else 0 := rfl

/-! ### Counting functions over an appended call -/

theorem specConcCount_append (l : List (AnalysisResult × Int × String))
    (c : AnalysisResult × Int × String) :
    specConcCount (l ++ [c]) =
      specConcCount l + if c.1.isConcerning then 1 else 0 := by
  cases hc : c.1.isConcerning <;>
    simp [specConcCount, concerningCalls, List.filter_append, hc]

theorem specConfSum_append (l : List (AnalysisResult × Int × String))
    (c : AnalysisResult × Int × String) :
    specConfSum (l ++ [c]) =
      specConfSum l + if c.1.isConcerning then c.1.confidence else 0 := by
  cases hc : c.1.isConcerning <;>
    simp [specConfSum, concerningCalls, List.filter_append, hc]

theorem specIssueCount_append (ty : String) (l : List (AnalysisResult × Int × String))
    (c : AnalysisResult × Int × String) :
    specIssueCount ty (l ++ [c]) =
      specIssueCount ty l +
        if c.1.isConcerning && c.1.issueType == ty then 1 else 0 := by
  rw [specIssueCount, List.filter_append, List.length_append, specIssueCount]
  congr 1
  by_cases h : (c.1.isConcerning && c.1.issueType == ty) = true <;> simp [h]

theorem specSevCount_append (sev : Severity) (l : List (AnalysisResult × Int × String))
    (c : AnalysisResult × Int × String) :
    specSevCount sev (l ++ [c]) =
      specSevCount sev l +
        if c.1.isConcerning && c.1.severity == sev then 1 else 0 := by
  rw [specSevCount, List.filter_append, List.length_append, specSevCount]
  congr 1
  by_cases h : (c.1.isConcerning && c.1.severity == sev) = true <;> simp [h]

theorem specConfSum_of_count_zero (l : List (AnalysisResult × Int × String))
    (h : specConcCount l = 0) : specConfSum l = 0 := by
  rw [specConcCount, List.length_eq_zero] at h
  rw [specConfSum, h]
  rfl

/-- The structure form of `bumpIssue`: each bucket gains one exactly when
the issue type equals its label. -/
theorem bumpIssue_eq (ib : IssueBreakdown) (ty : String) :
    bumpIssue ib ty =
      ⟨ib.discrimination + (if ty == "discrimination" then 1 else 0),
       ib.harassment + (if ty == "harassment" then 1 else 0),
       ib.bullying + (if ty == "bullying" then 1 else 0),
       ib.implicit_bias + (if ty == "implicit_bias" then 1 else 0),
       ib.labeling + (if ty == "labeling" then 1 else 0),
       ib.targeting + (if ty == "targeting" then 1 else 0),
       ib.inappropriate + (if ty == "inappropriate" then 1 else 0)⟩ := by
  unfold bumpIssue; split_ifs <;> simp_all

theorem specIssueBreakdown_append (l : List (AnalysisResult × Int × String))
    (c : AnalysisResult × Int × String) :
    specIssueBreakdown (l ++ [c]) =
      if c.1.isConcerning && c.1.issueType != "none"
      then bumpIssue (specIssueBreakdown l) c.1.issueType
      else specIssueBreakdown l := by
  by_cases hn : c.1.issueType = "none"
  · rcases Bool.eq_false_or_eq_true c.1.isConcerning with hc | hc <;>
      simp [specIssueBreakdown, specIssueCount_append, hc, hn]
  · rcases Bool.eq_false_or_eq_true c.1.isConcerning with hc | hc <;>
      simp [specIssueBreakdown, specIssueCount_append, hc, hn, bumpIssue_eq]

theorem specSevBreakdown_append (l : List (AnalysisResult × Int × String))
    (c : AnalysisResult × Int × String) :
    specSevBreakdown (l ++ [c]) =
      if c.1.isConcerning then bumpSeverity (specSevBreakdown l) c.1.severity
      else specSevBreakdown l := by
  cases hc : c.1.isConcerning with
  | false => simp [specSevBreakdown, specSevCount_append, hc]
  | true =>
      cases hs : c.1.severity <;>
        simp [specSevBreakdown, specSevCount_append, hc, hs, bumpSeverity]

/-- The signal stored for a pair after any verdict sequence applied to an
empty store: the counters, breakdowns, and running confidence mean are the
reference counts of the sequence. -/
theorem getSignal_foldRecord_empty (g s t : String)
    (calls : List (AnalysisResult × Int × String)) :
    (getSignal (foldRecord emptyStore g s t calls) g s t).map
      (fun x => (x.total_interactions, x.concerning_count, x.issue_breakdown,
                 x.severity_breakdown, x.avg_confidence))
    = if calls.isEmpty then none
      else some (calls.length, specConcCount calls, specIssueBreakdown calls,
                 specSevBreakdown calls, specAvgConfidence calls) := by
  induction calls using List.reverseRecOn with
  | nil => rfl
  | append_singleton l c ih =>
      have hstep : foldRecord emptyStore g s t (l ++ [c]) =
          (recordAnalysis (foldRecord emptyStore g s t l) g s t c.1 c.2.1 c.2.2).1 := by
        rw [foldRecord, List.foldl_append]
        rfl
      rw [hstep, getSignal_recordAnalysis, Option.map_some']
      rw [if_neg (by simp [List.isEmpty_iff] : ¬((l ++ [c]).isEmpty = true))]
      set st0 := foldRecord emptyStore g s t l with hst0
      have hprev : prevTotal st0 g s t = l.length ∧
          prevConcerning st0 g s t = specConcCount l ∧
          prevIssueB st0 g s t = specIssueBreakdown l ∧
          prevSevB st0 g s t = specSevBreakdown l ∧
          prevTotalConf st0 g s t =
            specAvgConfidence l * (specConcCount l : Rat) := by
        by_cases hl : l.isEmpty
        · have hempty : l = [] := List.isEmpty_iff.mp hl
          subst hempty
          refine ⟨rfl, rfl, rfl, rfl, ?_⟩
          show (0 : Rat) = specAvgConfidence [] * _
          norm_num [specAvgConfidence, specConcCount, concerningCalls]
        · rw [if_neg (by simp [hl])] at ih
          rcases hsig : getSignal st0 g s t with _ | x
          · rw [hsig] at ih
            exact absurd ih (by simp)
          · rw [hsig] at ih
            simp only [Option.map_some', Option.some.injEq, Prod.mk.injEq] at ih
            obtain ⟨e1, e2, e3, e4, e5⟩ := ih
            refine ⟨?_, ?_, ?_, ?_, ?_⟩
            · rw [prevTotal, hsig, Option.map_some', Option.getD_some, e1]
            · rw [prevConcerning, hsig, Option.map_some', Option.getD_some, e2]
            · rw [prevIssueB, hsig, Option.map_some', Option.getD_some, e3]
            · rw [prevSevB, hsig, Option.map_some', Option.getD_some, e4]
            · rw [prevTotalConf, hsig, Option.map_some', Option.getD_some, e5, e2]
      obtain ⟨h1, h2, h3, h4, h5⟩ := hprev
      have hconf : prevTotalConf st0 g s t = specConfSum l := by
        rw [h5]
        by_cases h0 : specConcCount l = 0
        · rw [h0, specConfSum_of_count_zero l h0]
          norm_num
        · rw [specAvgConfidence, if_neg h0,
            div_mul_cancel₀ _ (by exact_mod_cast h0 : (specConcCount l : Rat) ≠ 0)]
      simp only [Option.some.injEq, Prod.mk.injEq]
      refine ⟨?_, ?_, ?_, ?_, ?_⟩
      · rw [updatedSignalOf_total, h1]
        simp
      · rw [updatedSignalOf_concerning, h2, specConcCount_append]
        cases hc : c.1.isConcerning <;> simp
      · rw [updatedSignalOf_issueB, h3, specIssueBreakdown_append]
      · rw [updatedSignalOf_sevB, h4, specSevBreakdown_append]
      · rw [updatedSignalOf_avg, h2, hconf, specAvgConfidence, specConcCount_append,
          specConfSum_append]
        rcases Bool.eq_false_or_eq_true c.1.isConcerning with hc | hc
        · simp only [hc, if_true]
          rw [if_pos (by omega), if_neg (by omega)]
        · simp only [hc, Bool.false_eq_true, if_false, add_zero]
          by_cases h0 : specConcCount l = 0
          · rw [h0]
            norm_num
          · rw [if_pos (by omega), if_neg h0]

/-! ### Claim theorems about trend and thresholds -/

/-- C1: for every snapshot list (most recent first) the trend is 0 when
fewer than 14 snapshots exist, and otherwise is +1 / -1 / 0 according to
whether the difference of the two 7-day means of `concerning_count`
exceeds 1/2, is below -1/2, or lies in between.  The example "seven days
of concerning-count 0 followed by seven days of concerning-count 2" reads
chronologically: in the most-recent-first input it is seven count-2
snapshots followed by seven count-0 snapshots, and it yields +1.  Finally,
the aggregator stores as the pair's trend exactly the trend computed from
the (at most 30) most recent snapshots after the snapshot write. -/
theorem trend_zero_below_14_and_mean_rule :
    (∀ snapshots : List DailySnapshot,
      calculateTrend snapshots =
        if snapshots.length < 14 then 0
        else if (sumConcerning (snapshots.take 7) : Rat) / 7
            - (sumConcerning ((snapshots.drop 7).take 7) : Rat) / 7 > 1/2 then 1
        else if (sumConcerning (snapshots.take 7) : Rat) / 7
            - (sumConcerning ((snapshots.drop 7).take 7) : Rat) / 7 < -(1/2 : Rat) then -1
        else 0)
    ∧ calculateTrend
        (List.replicate 7 (snapWithCount 2) ++ List.replicate 7 (snapWithCount 0)) = 1
    ∧ (∀ (st : SignalStore) (g s t : String) (r : AnalysisResult) (now : Int)
        (today : String),
        (getSignal (recordAnalysis st g s t r now today).1 g s t).map (·.trend)
          = some (calculateTrend (getRecentSnapshots
              (recordSnapshot st (snapshotOfVerdict g s t today r)) g s t 30))
        ∧ (getRecentSnapshots
            (recordSnapshot st (snapshotOfVerdict g s t today r)) g s t 30).length ≤ 30) := by
  refine ⟨?_, ?_, ?_⟩
  · intro snapshots
    by_cases h7 : snapshots.length < 7
    · rw [calculateTrend, if_pos h7, if_pos (by omega)]
    · have hq : ((snapshots.drop 7).take 7).length = min 7 (snapshots.length - 7) := by
        simp [List.length_take, List.length_drop]
      by_cases h14 : snapshots.length < 14
      · rw [calculateTrend, if_neg h7]
        simp only []
        rw [if_pos (by omega), if_pos (by omega)]
      · have hr : (snapshots.take 7).length = 7 := by
          simp [List.length_take]; omega
        have hp : ((snapshots.drop 7).take 7).length = 7 := by rw [hq]; omega
        rw [calculateTrend, if_neg h7]
        simp only []
        rw [if_neg (by omega), if_neg h14, hr, hp]
        norm_num
  · with_unfolding_all decide
  · intro st g s t r now today
    refine ⟨?_, List.length_take_le 30 _⟩
    rw [getSignal_recordAnalysis, Option.map_some', updatedSignalOf_trend]

/-- C2: the `isNewConcern` flag of a recorded verdict is true exactly when
the previously stored concerning count (0 when no signal existed) is
strictly below one of the thresholds 3, 5, 10, 20 and the new concerning
count reaches it; along the verdict sequence whose concerning counts are
0, 1, 2, 3, 4, 5 the flag fires exactly at the transitions to 3 and 5. -/
theorem isNewConcern_iff_threshold_crossing :
    (∀ (st : SignalStore) (g s t : String) (r : AnalysisResult) (now : Int)
      (today : String),
      ((recordAnalysis st g s t r now today).2.isNewConcern = true ↔
        ∃ th ∈ concernThresholds, prevConcerning st g s t < th ∧
          th ≤ (if r.isConcerning then prevConcerning st g s t + 1
                else prevConcerning st g s t)))
    ∧ concernFlags emptyStore "G" "A" "B" seqCalls
        = [false, false, false, true, false, true] := by
  constructor
  · intro st g s t r now today
    show checkConcernThreshold (getSignal st g s t)
        (updatedSignalOf st g s t r now today) = true ↔ _
    rw [checkConcernThreshold, List.any_eq_true]
    simp only [Bool.and_eq_true, decide_eq_true_eq, updatedSignalOf_concerning]
    rfl
  · with_unfolding_all decide

theorem getSnapshot_recordAnalysis (st : SignalStore) (g s t : String)
    (r : AnalysisResult) (now : Int) (today : String) :
    getSnapshot (recordAnalysis st g s t r now today).1 g s t today =
      some (snapshotOfVerdict g s t today r) := by
  show getSnapshot (upsertSignal (recordSnapshot st (snapshotOfVerdict g s t today r))
      (updatedSignalOf st g s t r now today)) g s t today = _
  rw [getSnapshot_upsertSignal]
  show List.find? _ (snapshotOfVerdict g s t today r :: _) = _
  rw [List.find?_cons_of_pos]
  simp [snapKeyMatches, snapshotOfVerdict]

/-- C3: per recorded verdict, `total_interactions` gains exactly 1
unconditionally, while the concerning counter and the matching severity
and issue buckets gain 1 exactly when the verdict is concerning (an
unknown or "none" issue type increments no issue bucket); and over any
nonempty verdict sequence for a fresh pair, the stored counters equal the
reference counts of the sequence, with `avg_confidence` the sum of the
concerning verdicts' confidences divided by `concerning_count` (0 when
that count is 0). -/
theorem recordVerdict_counter_updates :
    (∀ (st : SignalStore) (g s t : String) (r : AnalysisResult) (now : Int)
      (today : String),
      (getSignal (recordAnalysis st g s t r now today).1 g s t).map
          (·.total_interactions) = some (prevTotal st g s t + 1)
      ∧ (getSignal (recordAnalysis st g s t r now today).1 g s t).map
          (·.concerning_count) =
          some (prevConcerning st g s t + (if r.isConcerning then 1 else 0))
      ∧ (getSignal (recordAnalysis st g s t r now today).1 g s t).map
          (·.severity_breakdown) =
          some ⟨(prevSevB st g s t).low +
                  (if r.isConcerning && r.severity == Severity.low then 1 else 0),
                (prevSevB st g s t).medium +
                  (if r.isConcerning && r.severity == Severity.medium then 1 else 0),
                (prevSevB st g s t).high +
                  (if r.isConcerning && r.severity == Severity.high then 1 else 0)⟩
      ∧ (getSignal (recordAnalysis st g s t r now today).1 g s t).map
          (·.issue_breakdown) =
          some ⟨(prevIssueB st g s t).discrimination +
                  (if r.isConcerning && r.issueType == "discrimination" then 1 else 0),
                (prevIssueB st g s t).harassment +
                  (if r.isConcerning && r.issueType == "harassment" then 1 else 0),
                (prevIssueB st g s t).bullying +
                  (if r.isConcerning && r.issueType == "bullying" then 1 else 0),
                (prevIssueB st g s t).implicit_bias +
                  (if r.isConcerning && r.issueType == "implicit_bias" then 1 else 0),
                (prevIssueB st g s t).labeling +
                  (if r.isConcerning && r.issueType == "labeling" then 1 else 0),
                (prevIssueB st g s t).targeting +
                  (if r.isConcerning && r.issueType == "targeting" then 1 else 0),
                (prevIssueB st g s t).inappropriate +
                  (if r.isConcerning && r.issueType == "inappropriate" then 1 else 0)⟩)
    ∧ (∀ (g s t : String) (l : List (AnalysisResult × Int × String))
        (c : AnalysisResult × Int × String),
        (getSignal (foldRecord emptyStore g s t (l ++ [c])) g s t).map
          (fun x => (x.total_interactions, x.concerning_count, x.issue_breakdown,
                     x.severity_breakdown, x.avg_confidence))
        = some ((l ++ [c]).length, specConcCount (l ++ [c]),
                specIssueBreakdown (l ++ [c]), specSevBreakdown (l ++ [c]),
                specAvgConfidence (l ++ [c]))) := by
  constructor
  · intro st g s t r now today
    refine ⟨?_, ?_, ?_, ?_⟩ <;>
      rw [getSignal_recordAnalysis, Option.map_some', Option.some.injEq]
    · exact updatedSignalOf_total st g s t r now today
    · rw [updatedSignalOf_concerning]
      rcases Bool.eq_false_or_eq_true r.isConcerning with hc | hc <;> simp [hc, prevConcerning]
    · rw [updatedSignalOf_sevB]
      rcases Bool.eq_false_or_eq_true r.isConcerning with hc | hc
      · cases hs : r.severity <;> simp [hc, hs, bumpSeverity]
      · simp only [hc, Bool.false_eq_true, if_false, Bool.false_and, add_zero]
    · rw [updatedSignalOf_issueB]
      by_cases hn : r.issueType = "none"
      · rcases Bool.eq_false_or_eq_true r.isConcerning with hc | hc <;>
          simp [hc, hn, bumpIssue_eq]
      · rcases Bool.eq_false_or_eq_true r.isConcerning with hc | hc <;>
          simp [hc, hn, bumpIssue_eq]
  · intro g s t l c
    rw [getSignal_foldRecord_empty,
      if_neg (by simp [List.isEmpty_iff] : ¬((l ++ [c]).isEmpty = true))]

/-- C4: every recorded verdict replaces the pair's snapshot row for the
current calendar day with exactly this verdict's contribution
(`interaction_count` 1, concerning count 0/1, severity mapped to 1/2/3 or
0, issue type or null), so after any same-day sequence the day's row
reflects only the last verdict. -/
theorem daily_snapshot_last_write_wins :
    (∀ (st : SignalStore) (g s t : String) (r : AnalysisResult) (now : Int)
      (today : String),
      getSnapshot (recordAnalysis st g s t r now today).1 g s t today =
        some { guild_id := g, source_user_id := s, target_user_id := t,
               date := today,
               interaction_count := 1,
               concerning_count := if r.isConcerning then 1 else 0,
               avg_severity :=
                 if r.isConcerning then (severityToNumber r.severity : Rat) else 0,
               primary_issue_type :=
                 if r.isConcerning then some r.issueType else none })
    ∧ (∀ (st : SignalStore) (g s t : String)
        (l : List (AnalysisResult × Int × String)) (v : AnalysisResult)
        (now : Int) (today : String),
        getSnapshot (foldRecord st g s t (l ++ [(v, now, today)])) g s t today =
          some (snapshotOfVerdict g s t today v)) := by
  constructor
  · intro st g s t r now today
    rw [getSnapshot_recordAnalysis]
    rfl
  · intro st g s t l v now today
    have hstep : foldRecord st g s t (l ++ [(v, now, today)]) =
        (recordAnalysis (foldRecord st g s t l) g s t v now today).1 := by
      rw [foldRecord, List.foldl_append]
      rfl
    rw [hstep, getSnapshot_recordAnalysis]

/-- C5: the returned `trendChanged` flag is true exactly when the
previously stored trend (0 when no signal existed) differs from the newly
computed trend and the new trend is worsening (+1); consequently when two
consecutive calls for the same pair both compute trend +1 the second call
never reports `trendChanged`. -/
theorem trendChanged_iff_transition_into_worsening :
    (∀ (st : SignalStore) (g s t : String) (r : AnalysisResult) (now : Int)
      (today : String),
      ((recordAnalysis st g s t r now today).2.trendChanged = true ↔
        ((getSignal st g s t).map (·.trend)).getD 0 ≠
            (updatedSignalOf st g s t r now today).trend
          ∧ (updatedSignalOf st g s t r now today).trend = 1))
    ∧ (∀ (st : SignalStore) (g s t : String) (r1 : AnalysisResult) (n1 : Int)
        (d1 : String) (r2 : AnalysisResult) (n2 : Int) (d2 : String),
        (updatedSignalOf st g s t r1 n1 d1).trend = 1 →
        (updatedSignalOf (recordAnalysis st g s t r1 n1 d1).1 g s t r2 n2 d2).trend = 1 →
        (recordAnalysis (recordAnalysis st g s t r1 n1 d1).1 g s t r2 n2 d2).2.trendChanged
          = false) := by
  constructor
  · intro st g s t r now today
    show ((((getSignal st g s t).map (·.trend)).getD 0
        != (updatedSignalOf st g s t r now today).trend)
        && ((updatedSignalOf st g s t r now today).trend == 1)) = true ↔ _
    simp [bne_iff_ne]
  · intro st g s t r1 n1 d1 r2 n2 d2 h1 h2
    have key : (recordAnalysis (recordAnalysis st g s t r1 n1 d1).1 g s t r2 n2 d2).2.trendChanged
        = ((((getSignal (recordAnalysis st g s t r1 n1 d1).1 g s t).map (·.trend)).getD 0
            != (updatedSignalOf (recordAnalysis st g s t r1 n1 d1).1 g s t r2 n2 d2).trend)
           && ((updatedSignalOf (recordAnalysis st g s t r1 n1 d1).1 g s t r2 n2 d2).trend
              == 1)) := rfl
    rw [key, getSignal_recordAnalysis, Option.map_some', Option.getD_some, h1, h2]
    simp

/-- Witness for C5: on a store with thirteen snapshot days, two further
same-day concerning verdicts both compute a worsening trend, and the
second call does not report a trend change. -/
theorem trend_stays_worsening_witness :
    (recordAnalysis (recordAnalysis trendStore "G" "A" "B" seqConcern 1 "2025-03-15").1
        "G" "A" "B" seqConcern 2 "2025-03-15").2.trendChanged = false :=
  trendChanged_iff_transition_into_worsening.2 trendStore "G" "A" "B" seqConcern 1
    "2025-03-15" seqConcern 2 "2025-03-15"
    (by with_unfolding_all decide) (by with_unfolding_all decide)

/-! ### Claim theorems about the trigger classifier -/

/-- Counterexample for C6: with an empty author ID and an empty reply
author, the resolved counterpart equals the author, yet the classifier
analyzes labeling content instead of short-circuiting — the self-mention
guard tests JS truthiness, and the empty string is falsy. -/
theorem self_mention_empty_id_counterexample :
    resolveTarget (some "") [] = some "" ∧
    (checkTrigger "bad habit" "" [] (some "")).shouldAnalyze = true := by decide

/-- C6 (amended): the counterpart is resolved as `replyToAuthorId` if
present, else the first mentioned user, else none; when the resolved
counterpart is nonempty and equals the author, the result is a
self-mention refusal regardless of content; and for content matching any
category with a nonempty resolved counterpart distinct from the author,
the classifier fires with that counterpart as the target. -/
theorem trigger_resolution_and_self_mention :
    (∀ (content authorId : String) (mentions : List String)
      (replyToAuthorId : Option String) (tgt : String),
      resolveTarget replyToAuthorId mentions = some tgt → tgt ≠ "" →
      tgt = authorId →
      checkTrigger content authorId mentions replyToAuthorId =
        ⟨false, "Self-mention", none⟩)
    ∧ (∀ (content authorId : String) (mentions : List String)
        (replyToAuthorId : Option String) (tgt : String),
        resolveTarget replyToAuthorId mentions = some tgt → tgt ≠ "" →
        tgt ≠ authorId →
        matchesAnyCategory (chars content) = true →
        (checkTrigger content authorId mentions replyToAuthorId).shouldAnalyze = true ∧
        (checkTrigger content authorId mentions replyToAuthorId).targetUserId
          = some tgt) := by
  constructor
  · intro content authorId mentions replyTo tgt hres hne heq
    subst heq
    have hct : checkTrigger content tgt mentions replyTo =
        checkTriggerCore content tgt (some tgt) := by
      rw [checkTrigger, hres]
    rw [hct, checkTriggerCore,
      show (truthy (some tgt) && ((some tgt : Option String) == some tgt)) = true
        from by simp [truthy, hne]]
    exact if_pos rfl
  · intro content authorId mentions replyTo tgt hres hne hne2 hmatch
    have htr : truthy (some tgt) = true := by simp [truthy, hne]
    have hct : checkTrigger content authorId mentions replyTo =
        checkTriggerCore content authorId (some tgt) := by
      rw [checkTrigger, hres]
    rw [hct, checkTriggerCore,
      show (truthy (some tgt) && ((some tgt : Option String) == some authorId)) = false
        from by simp [hne2],
      if_neg (by simp : ¬(false = true)), htr]
    unfold matchesAnyCategory at hmatch
    revert hmatch
    generalize hasObviousNegative (chars content) = b1
    generalize hasLabelingPattern (chars content) = b2
    generalize hasEscalationPattern (chars content) = b3
    generalize hasGeneralizingPattern (chars content) = b4
    generalize hasJudgmentalPattern (chars content) = b5
    generalize hasInsultPattern (chars content) = b6
    generalize hasCompetenceDenial (chars content) = b7
    generalize hasThreatPattern (chars content) = b8
    generalize hasGenderBias (chars content) = b9
    generalize hasAgeBias (chars content) = b10
    generalize hasCondescending (chars content) = b11
    generalize hasDismissive (chars content) = b12
    generalize hasPublicHumiliation (chars content) = b13
    generalize hasAggressiveTone (chars content) = b14
    intro hmatch
    clear hct hres htr
    by_cases H1 : (b1 && true) = true
    · rw [if_pos H1]; exact ⟨rfl, rfl⟩
    rw [if_neg H1]
    by_cases H2 : b2 = true
    · rw [if_pos H2]; exact ⟨rfl, rfl⟩
    rw [if_neg H2]
    by_cases H3 : b3 = true
    · rw [if_pos H3]; exact ⟨rfl, rfl⟩
    rw [if_neg H3]
    by_cases H4 : b4 = true
    · rw [if_pos H4]; exact ⟨rfl, rfl⟩
    rw [if_neg H4]
    by_cases H5 : (b5 && true) = true
    · rw [if_pos H5]; exact ⟨rfl, rfl⟩
    rw [if_neg H5]
    by_cases H6 : b6 = true
    · rw [if_pos H6]; exact ⟨rfl, rfl⟩
    rw [if_neg H6]
    by_cases H7 : (b7 && true) = true
    · rw [if_pos H7]; exact ⟨rfl, rfl⟩
    rw [if_neg H7]
    by_cases H8 : b8 = true
    · rw [if_pos H8]; exact ⟨rfl, rfl⟩
    rw [if_neg H8]
    by_cases H9 : b9 = true
    · rw [if_pos H9]; exact ⟨rfl, rfl⟩
    rw [if_neg H9]
    by_cases H10 : b10 = true
    · rw [if_pos H10]; exact ⟨rfl, rfl⟩
    rw [if_neg H10]
    by_cases H11 : (b11 && true) = true
    · rw [if_pos H11]; exact ⟨rfl, rfl⟩
    rw [if_neg H11]
    by_cases H12 : (b12 && true) = true
    · rw [if_pos H12]; exact ⟨rfl, rfl⟩
    rw [if_neg H12]
    by_cases H13 : (b13 && true) = true
    · rw [if_pos H13]; exact ⟨rfl, rfl⟩
    rw [if_neg H13]
    by_cases H14 : (b14 && true) = true
    · rw [if_pos H14]; exact ⟨rfl, rfl⟩
    rw [if_neg H14]
    simp only [Bool.and_true] at H1 H5 H7 H11 H12 H13 H14
    simp_all

/-! ### The LIKE-based mention test versus list membership -/

theorem lowN_eq_fix {x d : Nat} (h1 : ¬(65 ≤ d ∧ d ≤ 90)) (h2 : ¬(97 ≤ d ∧ d ≤ 122)) :
    lowN x = d ↔ x = d := by
  unfold lowN; split <;> omega

theorem leadCI_nil_right (p : List Nat) : leadCI p [] = p.isEmpty := by
  cases p <;> rfl

theorem sqlLike_pct_nil (t : List Nat) : sqlLike [37] t = true := by
  induction t with
  | nil => rfl
  | cons c t ih =>
      show (sqlLike [] (c :: t) || anyTail (sqlLike []) t) = true
      rw [show anyTail (sqlLike []) t = sqlLike [37] t from rfl, ih, Bool.or_true]

theorem sqlLike_lit_pct (p : List Nat) (hp : ∀ n ∈ p, n ≠ 37 ∧ n ≠ 95) :
    ∀ t, sqlLike (p ++ [37]) t = leadCI p t := by
  induction p with
  | nil => intro t; rw [List.nil_append, sqlLike_pct_nil]; rfl
  | cons a ps ih =>
      intro t
      have ha := hp a (List.mem_cons_self a ps)
      have hps : ∀ n ∈ ps, n ≠ 37 ∧ n ≠ 95 := fun n hn => hp n (List.mem_cons_of_mem a hn)
      cases t with
      | nil =>
          show sqlLike (a :: (ps ++ [37])) [] = false
          rw [sqlLike]
          rw [if_neg ha.1, if_neg ha.2]
      | cons c ts =>
          show sqlLike (a :: (ps ++ [37])) (c :: ts) = _
          rw [sqlLike]
          rw [if_neg ha.1, if_neg ha.2]
          show ((lowN a == lowN c) && sqlLike (ps ++ [37]) ts) = _
          rw [ih hps ts]
          rfl

theorem sqlLike_pct_pct (p : List Nat) (hp : ∀ n ∈ p, n ≠ 37 ∧ n ≠ 95) :
    ∀ t, sqlLike (37 :: (p ++ [37])) t = ciSub p t := by
  intro t
  induction t with
  | nil =>
      show sqlLike (p ++ [37]) [] = _
      rw [sqlLike_lit_pct p hp]
      rfl
  | cons c ts ih =>
      show anyTail (sqlLike (p ++ [37])) (c :: ts) = _
      show (sqlLike (p ++ [37]) (c :: ts) || anyTail (sqlLike (p ++ [37])) ts) = _
      rw [show anyTail (sqlLike (p ++ [37])) ts = sqlLike (37 :: (p ++ [37])) ts from rfl,
        ih, sqlLike_lit_pct p hp]
      rfl

theorem escCode_plain {n : Nat} (h1 : n ≠ 34) (h2 : n ≠ 92) (h3 : 32 ≤ n) :
    escCode n = [n] := by
  unfold escCode; split_ifs <;> first | rfl | omega

theorem escStr_plain (s : String) (h : elemWf s) : escStr s = chars s := by
  unfold escStr
  have : ∀ l : List Nat, (∀ n ∈ l, n ≠ 34 ∧ n ≠ 92 ∧ 32 ≤ n) →
      l.foldr (fun c acc => escCode c ++ acc) [] = l := by
    intro l
    induction l with
    | nil => intro _; rfl
    | cons a l ih =>
        intro hl
        have ha := hl a (List.mem_cons_self a l)
        rw [List.foldr_cons, ih (fun n hn => hl n (List.mem_cons_of_mem a hn)),
          escCode_plain ha.1 ha.2.1 ha.2.2]
        rfl
  exact this (chars s) h

theorem ciSub_skip (w u t : List Nat) (hu : ∀ x ∈ u, x ≠ 34) :
    ciSub (34 :: w) (u ++ t) = ciSub (34 :: w) t := by
  induction u with
  | nil => rfl
  | cons c u ih =>
      have hc := hu c (List.mem_cons_self c u)
      have hu' : ∀ x ∈ u, x ≠ 34 := fun x hx => hu x (List.mem_cons_of_mem c hx)
      show (leadCI (34 :: w) (c :: (u ++ t)) || ciSub (34 :: w) (u ++ t)) = _
      rw [ih hu']
      have hlc : (lowN 34 == lowN c) = false := by
        rw [show lowN 34 = 34 from rfl]
        simp only [beq_eq_false_iff_ne, ne_eq]
        intro h
        exact hc ((lowN_eq_fix (by omega) (by omega)).mp h.symm)
      show ((lowN 34 == lowN c) && leadCI w (u ++ t) || _) = _
      rw [hlc, Bool.false_and, Bool.false_or]

theorem leadCI_quoted (u : List Nat) (hu : ∀ x ∈ u, x ≠ 34) :
    ∀ (e rest : List Nat), (∀ x ∈ e, x ≠ 34) →
      leadCI (u ++ [34]) (e ++ 34 :: rest) = ciEqN u e := by
  induction u with
  | nil =>
      intro e rest he
      cases e with
      | nil => simp [leadCI, ciEqN]
      | cons c e' =>
          have hc := he c (List.mem_cons_self c e')
          show ((lowN 34 == lowN c) && _) = _
          have hlc : (lowN 34 == lowN c) = false := by
            rw [show lowN 34 = 34 from rfl]
            simp only [beq_eq_false_iff_ne, ne_eq]
            intro h
            exact hc ((lowN_eq_fix (by omega) (by omega)).mp h.symm)
          rw [hlc, Bool.false_and]
          rfl
  | cons a u' ih =>
      intro e rest he
      have ha := hu a (List.mem_cons_self a u')
      have hu' : ∀ x ∈ u', x ≠ 34 := fun x hx => hu x (List.mem_cons_of_mem a hx)
      cases e with
      | nil =>
          show ((lowN a == lowN 34) && _) = _
          have hla : (lowN a == lowN 34) = false := by
            rw [show lowN 34 = 34 from rfl]
            simp only [beq_eq_false_iff_ne, ne_eq]
            intro h
            exact ha ((lowN_eq_fix (by omega) (by omega)).mp h)
          rw [hla, Bool.false_and]
          rfl
      | cons c e' =>
          show ((lowN a == lowN c) && leadCI (u' ++ [34]) (e' ++ 34 :: rest)) = _
          rw [ih hu' e' rest (fun x hx => he x (List.mem_cons_of_mem c hx))]
          rfl

theorem leadCI_quote_rbrack (u : List Nat) : leadCI (u ++ [34]) [93] = false := by
  cases u with
  | nil => decide
  | cons a u' =>
      show ((lowN a == lowN 93) && leadCI (u' ++ [34]) []) = false
      rw [leadCI_nil_right]
      cases u' <;> simp

theorem leadCI_quote_comma (u t : List Nat) (hu : ∀ x ∈ u, x ≠ 44) :
    leadCI (u ++ [34]) (44 :: t) = false := by
  cases u with
  | nil =>
      show ((lowN 34 == lowN 44) && leadCI [] t) = false
      rw [show (lowN 34 == lowN 44) = false from by decide, Bool.false_and]
  | cons a u' =>
      have ha := hu a (List.mem_cons_self a u')
      show ((lowN a == lowN 44) && _) = false
      have hla : (lowN a == lowN 44) = false := by
        rw [show lowN 44 = 44 from rfl]
        simp only [beq_eq_false_iff_ne, ne_eq]
        intro h
        exact ha ((lowN_eq_fix (by omega) (by omega)).mp h)
      rw [hla, Bool.false_and]

theorem ciSub_jbody (u : List Nat) (hu : ∀ x ∈ u, x ≠ 34 ∧ x ≠ 44) :
    ∀ es : List String, (∀ e ∈ es, elemWf e) →
      ciSub (34 :: (u ++ [34])) (jbody es) = es.any (fun e => ciEqN u (chars e)) := by
  have hu34 : ∀ x ∈ u, x ≠ 34 := fun x hx => (hu x hx).1
  have hu44 : ∀ x ∈ u, x ≠ 44 := fun x hx => (hu x hx).2
  intro es
  induction es with
  | nil =>
      intro _
      show (leadCI (34 :: (u ++ [34])) [93] || ciSub (34 :: (u ++ [34])) []) = false
      have h1 : leadCI (34 :: (u ++ [34])) [93] = false := by
        show ((lowN 34 == lowN 93) && _) = false
        rw [show ((lowN 34 == lowN 93) = false) from by decide, Bool.false_and]
      have h2 : ciSub (34 :: (u ++ [34])) [] = false := by
        show leadCI (34 :: (u ++ [34])) [] = false
        rw [leadCI_nil_right]
        rfl
      rw [h1, h2]
      rfl
  | cons e es ih =>
      intro hes
      have hee := hes e (List.mem_cons_self e es)
      have hes' : ∀ x ∈ es, elemWf x := fun x hx => hes x (List.mem_cons_of_mem e hx)
      have hech : ∀ x ∈ chars e, x ≠ 34 := fun x hx => (hee x hx).1
      rw [jbody, escStr_plain e hee]
      show (leadCI (34 :: (u ++ [34])) (34 :: (chars e ++ 34 :: _)) ||
        ciSub (34 :: (u ++ [34])) (chars e ++ 34 :: _)) = _
      have hhead : ∀ T, leadCI (34 :: (u ++ [34])) (34 :: (chars e ++ 34 :: T))
          = ciEqN u (chars e) := by
        intro T
        show ((lowN 34 == lowN 34) && leadCI (u ++ [34]) (chars e ++ 34 :: T)) = _
        rw [leadCI_quoted u hu34 (chars e) T hech, beq_self_eq_true, Bool.true_and]
      by_cases hte : es.isEmpty
      · have hesnil : es = [] := List.isEmpty_iff.mp hte
        subst hesnil
        rw [if_pos (show ([] : List String).isEmpty = true from rfl)]
        rw [hhead, ciSub_skip _ _ _ hech]
        show (ciEqN u (chars e) ||
          (leadCI (34 :: (u ++ [34])) (34 :: [93]) || ciSub (34 :: (u ++ [34])) [93])) = _
        have hq : leadCI (34 :: (u ++ [34])) (34 :: [93]) = false := by
          show ((lowN 34 == lowN 34) && leadCI (u ++ [34]) [93]) = false
          rw [leadCI_quote_rbrack, Bool.and_false]
        have hr : ciSub (34 :: (u ++ [34])) [93] = false := by
          show (leadCI (34 :: (u ++ [34])) [93] || ciSub (34 :: (u ++ [34])) []) = false
          rw [show ciSub (34 :: (u ++ [34])) [] = leadCI (34 :: (u ++ [34])) [] from rfl,
            leadCI_nil_right]
          show (leadCI (34 :: (u ++ [34])) [93] || false) = false
          rw [show leadCI (34 :: (u ++ [34])) [93]
              = ((lowN 34 == lowN 93) && leadCI (u ++ [34]) []) from rfl,
            show (lowN 34 == lowN 93) = false from by decide, Bool.false_and]
          rfl
        rw [hq, hr]
        simp [List.any_cons]
      · have hne : es ≠ [] := fun h => hte (by simp [h])
        rw [if_neg (fun h => hne (List.isEmpty_iff.mp h))]
        rw [hhead, ciSub_skip _ _ _ hech]
        show (ciEqN u (chars e) ||
          (leadCI (34 :: (u ++ [34])) (34 :: (44 :: jbody es)) ||
            ciSub (34 :: (u ++ [34])) (44 :: jbody es))) = _
        have hq : leadCI (34 :: (u ++ [34])) (34 :: (44 :: jbody es)) = false := by
          show ((lowN 34 == lowN 34) && leadCI (u ++ [34]) (44 :: jbody es)) = false
          rw [leadCI_quote_comma u (jbody es) hu44, Bool.and_false]
        have hr : ciSub (34 :: (u ++ [34])) (44 :: jbody es)
            = es.any (fun x => ciEqN u (chars x)) := by
          show (leadCI (34 :: (u ++ [34])) (44 :: jbody es) ||
            ciSub (34 :: (u ++ [34])) (jbody es)) = _
          have hl : leadCI (34 :: (u ++ [34])) (44 :: jbody es) = false := by
            show ((lowN 34 == lowN 44) && _) = false
            rw [show (lowN 34 == lowN 44) = false from by decide, Bool.false_and]
          rw [hl, Bool.false_or, ih hes']
        rw [hq, hr]
        simp [List.any_cons]

/-- For IDs free of quote, backslash, percent, underscore and comma, and
mention entries free of quote, backslash and control characters, the
stored LIKE match is exactly case-insensitive list membership. -/
theorem mentionsLike_eq_mem (mts : List String) (uid : String) (hid : idWf uid)
    (hm : ∀ e ∈ mts, elemWf e) :
    mentionsLike mts uid = mentionsContainCI mts uid := by
  unfold mentionsLike jencode
  have hwild : ∀ n ∈ (34 :: (chars uid ++ [34])), n ≠ 37 ∧ n ≠ 95 := by
    intro n hn
    rcases List.mem_cons.mp hn with h | h
    · omega
    · rcases List.mem_append.mp h with h | h
      · exact ⟨(hid n h).2.2.1, (hid n h).2.2.2.1⟩
      · simp at h; omega
  rw [show (37 :: 34 :: (chars uid ++ [34, 37]))
      = (37 :: ((34 :: (chars uid ++ [34])) ++ [37])) from by simp,
    sqlLike_pct_pct _ hwild,
    show (91 :: jbody mts) = ([91] ++ jbody mts) from rfl,
    ciSub_skip _ _ _ (by intro x hx; simp at hx; omega),
    ciSub_jbody (chars uid) (fun x hx => ⟨(hid x hx).1, (hid x hx).2.2.2.2⟩) mts hm]
  rfl

/-! ### Shape lemmas for the context builder -/

theorem buildContext_unfold (ms : MessageStore)
    (g tid a b : String) (now wh : Int) (cn un : String → Option String) :
    buildContext ms g tid a b now wh cn un =
      (match getById ms tid with
       | none => none
       | some trig =>
         if (getContextBetweenUsers ms g a b (now - wh * 60 * 60 * 1000) 100).length == 0
         then none
         else
           some ⟨storedToContextEntry cn un trig,
             (getContextBetweenUsers ms g a b (now - wh * 60 * 60 * 1000) 100).map
               (toContextEntry cn un),
             jsDedup (((getContextBetweenUsers ms g a b (now - wh * 60 * 60 * 1000) 100).map
                 (toContextEntry cn un)).map (·.authorId) ++
               ((getContextBetweenUsers ms g a b (now - wh * 60 * 60 * 1000) 100).map
                 (toContextEntry cn un)).flatMap (·.mentionedUsers)),
             jsRound (((listMax (((getContextBetweenUsers ms g a b
                   (now - wh * 60 * 60 * 1000) 100).map (toContextEntry cn un)).map
                   (·.timestamp) ++ [(storedToContextEntry cn un trig).timestamp])
                 - listMin (((getContextBetweenUsers ms g a b
                   (now - wh * 60 * 60 * 1000) 100).map (toContextEntry cn un)).map
                   (·.timestamp)) : Int) : Rat) / (60 * 1000))⟩) := by
  unfold buildContext
  cases getById ms tid <;> rfl

theorem map_toContextEntry_timestamp (cn un : String → Option String)
    (l : List ContextMessage) :
    (l.map (toContextEntry cn un)).map (·.timestamp) = l.map (·.timestamp) := by
  induction l with
  | nil => rfl
  | cons h t ih => simp only [List.map_cons, ih]; rfl

theorem map_toContextEntry_author (cn un : String → Option String)
    (l : List ContextMessage) :
    (l.map (toContextEntry cn un)).map (·.authorId) = l.map (·.author_id) := by
  induction l with
  | nil => rfl
  | cons h t ih => simp only [List.map_cons, ih]; rfl

theorem flatMap_toContextEntry_mentions (cn un : String → Option String)
    (l : List ContextMessage) :
    (l.map (toContextEntry cn un)).flatMap (·.mentionedUsers) = l.flatMap (·.mentions) := by
  induction l with
  | nil => rfl
  | cons h t ih =>
      simp only [List.map_cons, List.flatMap_cons, ih]
      rfl

/-- Counterexample for C7: the pair member "b" LIKE-matches the mention
entry "B" of a message authored by the outside user c, so that message is
returned even though its author is neither pair member and its mention
list contains neither ID. -/
theorem context_mentions_case_insensitive_counterexample :
    (buildContext cexStore "G" "t1" "a" "b" 1000 24 (fun _ => none) (fun _ => none)).map
        (fun ch => ch.contextMessages.map (·.messageId)) = some ["m1", "t1"]
    ∧ cexMsg.author_id ≠ "a" ∧ cexMsg.author_id ≠ "b"
    ∧ "a" ∉ cexMsg.mentions ∧ "b" ∉ cexMsg.mentions := by
  refine ⟨by with_unfolding_all decide, by decide, by decide, by decide, by decide⟩

/-- C7 (amended): for pair IDs free of quote, backslash, percent,
underscore and comma characters, and stored mention entries free of
quotes, backslashes and control characters, the context query returns
exactly the guild's stored messages in the window whose author is either
pair member or whose mention list contains an entry equal (up to ASCII
letter case) to either ID — across all channels, ordered ascending by
timestamp and capped at the limit (100 when called from the context
builder); the successful builds' context messages are exactly that list. -/
theorem context_query_exactly_pair_messages :
    (∀ (ms : MessageStore) (guildId userAId userBId : String) (since : Int)
      (limit : Nat),
      idWf userAId → idWf userBId →
      (∀ m ∈ ms.messages, ∀ e ∈ m.mentions, elemWf e) →
      getContextBetweenUsers ms guildId userAId userBId since limit =
        specContextList ms guildId userAId userBId since limit)
    ∧ (∀ (ms : MessageStore) (g tid a b : String) (now wh : Int)
        (cn un : String → Option String),
        idWf a → idWf b →
        (∀ m ∈ ms.messages, ∀ e ∈ m.mentions, elemWf e) →
        (buildContext ms g tid a b now wh cn un).map (·.contextMessages) =
          (buildContext ms g tid a b now wh cn un).map (fun _ =>
            (specContextList ms g a b (now - wh * 60 * 60 * 1000) 100).map
              (toContextEntry cn un))) := by
  have key : ∀ (ms : MessageStore) (guildId userAId userBId : String) (since : Int)
      (limit : Nat),
      idWf userAId → idWf userBId →
      (∀ m ∈ ms.messages, ∀ e ∈ m.mentions, elemWf e) →
      getContextBetweenUsers ms guildId userAId userBId since limit =
        specContextList ms guildId userAId userBId since limit := by
    intro ms g a b since limit hA hB hm
    unfold getContextBetweenUsers specContextList
    have hf : ms.messages.filter (fun m =>
        m.guild_id == g && decide (since ≤ m.timestamp) &&
          (m.author_id == a || m.author_id == b ||
           mentionsLike m.mentions a || mentionsLike m.mentions b))
        = ms.messages.filter (fun m =>
        m.guild_id == g && decide (since ≤ m.timestamp) &&
          (m.author_id == a || m.author_id == b ||
           mentionsContainCI m.mentions a || mentionsContainCI m.mentions b)) := by
      apply List.filter_congr
      intro m hm'
      rw [mentionsLike_eq_mem m.mentions a hA (hm m hm'),
        mentionsLike_eq_mem m.mentions b hB (hm m hm')]
    rw [hf]
  refine ⟨key, ?_⟩
  intro ms g tid a b now wh cn un hA hB hm
  rw [buildContext_unfold]
  cases h : getById ms tid with
  | none => rfl
  | some trig =>
      dsimp only
      by_cases he : (getContextBetweenUsers ms g a b (now - wh * 60 * 60 * 1000) 100).length
          == 0
      · rw [if_pos he]
        rfl
      · rw [if_neg he, Option.map_some', Option.map_some', Option.some.injEq,
          key ms g a b (now - wh * 60 * 60 * 1000) 100 hA hB hm]

/-- Witness for C7: on the scenario store with well-formed IDs the
context query equals the reference list. -/
theorem context_query_witness :
    getContextBetweenUsers scnStore "G" "A" "B" 0 100 =
      specContextList scnStore "G" "A" "B" 0 100 :=
  context_query_exactly_pair_messages.1 scnStore "G" "A" "B" 0 100
    (by unfold idWf; decide) (by unfold idWf; decide) (by unfold elemWf; decide)

/-- C8: the context build returns none exactly when the trigger message
is absent from the store or the window yields no context messages; in
every other case it returns a chain (the embedding is a total function,
so no valid input raises). -/
theorem buildContext_none_iff :
    ∀ (ms : MessageStore) (g tid a b : String) (now wh : Int)
      (cn un : String → Option String),
      buildContext ms g tid a b now wh cn un = none ↔
        (getById ms tid = none ∨
         getContextBetweenUsers ms g a b (now - wh * 60 * 60 * 1000) 100 = []) := by
  intro ms g tid a b now wh cn un
  rw [buildContext_unfold]
  cases h : getById ms tid with
  | none => simp
  | some trig =>
      by_cases he : getContextBetweenUsers ms g a b (now - wh * 60 * 60 * 1000) 100 = []
      · simp [he]
      · have hlen : ((getContextBetweenUsers ms g a b
            (now - wh * 60 * 60 * 1000) 100).length == 0) = false := by
          simpa [List.length_eq_zero] using he
        simp [hlen, he]

/-- C9: every successful build's time span is
round((max timestamp over context and trigger - min over context) /
60000) and its involved users are the deduplicated union of context
authors and mentioned users; in the end-to-end scenario (A sends the
generalizing remark mentioning B, no prior messages) the classifier fires
with target B and the chain holds only the trigger with span 0 and users
A and B. -/
theorem context_chain_derived_stats :
    (∀ (ms : MessageStore) (g tid a b : String) (now wh : Int)
      (cn un : String → Option String),
      (buildContext ms g tid a b now wh cn un).map
          (fun ch => (ch.timeSpanMinutes, ch.involvedUsers)) =
        (buildContext ms g tid a b now wh cn un).map
          (fun _ => (specSpan ms g tid a b now wh, specUsers ms g a b now wh)))
    ∧ checkTrigger "你們工程師就是這樣" "A" ["B"] none =
        ⟨true, "Generalizing/implicit bias pattern detected", some "B"⟩
    ∧ (buildContext scnStore "G" "m1" "A" "B" 1000 24 (fun _ => none)
          (fun _ => none)).map
        (fun ch => (ch.contextMessages.map (·.messageId), ch.timeSpanMinutes,
          ch.involvedUsers))
        = some (["m1"], 0, ["A", "B"]) := by
  refine ⟨?_, by decide, by with_unfolding_all decide⟩
  intro ms g tid a b now wh cn un
  rw [buildContext_unfold]
  cases h : getById ms tid with
  | none => rfl
  | some trig =>
      dsimp only
      by_cases he : (getContextBetweenUsers ms g a b (now - wh * 60 * 60 * 1000) 100).length
          == 0
      · rw [if_pos he]
        rfl
      · rw [if_neg he, Option.map_some', Option.map_some', Option.some.injEq]
        dsimp only
        rw [Prod.mk.injEq]
        constructor
        · rw [specSpan, h, map_toContextEntry_timestamp,
            show (storedToContextEntry cn un trig).timestamp = trig.timestamp from rfl]
          norm_num
        · rw [specUsers, map_toContextEntry_author, flatMap_toContextEntry_mentions]

/-- Witness for C6: a self-mention refusal at a concrete nonempty ID, and
a labeling-content trigger whose target is the mentioned counterpart. -/
theorem trigger_resolution_witness :
    checkTrigger "hello" "A" ["A"] none = ⟨false, "Self-mention", none⟩ ∧
    ((checkTrigger "bad habit" "A" ["B"] none).shouldAnalyze = true ∧
     (checkTrigger "bad habit" "A" ["B"] none).targetUserId = some "B") :=
  ⟨trigger_resolution_and_self_mention.1 "hello" "A" ["A"] none "A" rfl
      (by decide) rfl,
   trigger_resolution_and_self_mention.2 "bad habit" "A" ["B"] none "B" rfl
      (by decide) (by decide) (by decide)⟩

/-- C10: an eleven-digit string has no alphabetic (case-changeable)
characters and fewer than three exclamation marks, matches no keyword or
pattern category, yet — because the all-caps test compares the content to
its own upper-cased form — the classifier reports an aggressive tone for
it when a counterpart distinct from the author resolves. -/
theorem all_caps_quirk_on_nonalphabetic_content :
    checkTrigger "12345678901" "u1" ["u2"] none =
      ⟨true, "Aggressive tone detected", some "u2"⟩ ∧
    (chars "12345678901").length = 11 ∧
    exclCount (chars "12345678901") = 0 ∧
    (∀ c ∈ chars "12345678901",
      ¬(65 ≤ c ∧ c ≤ 90) ∧ ¬(97 ≤ c ∧ c ≤ 122)) := by decide

end Mimamori
